import Mathlib

/-!
# GreatDepression2.com — client-side behaviour layer (`app.js`)

A shallow embedding of the controllers of `app.js` and the properties of
their specification.

Conventions of the embedding.

* A DOM element the script looks up is a record of the properties the script
  reads or writes; a lookup that may return `null` is an `Option`.
* `classList` is the ordered list of class tokens of an element.
* A method that can raise a `TypeError` (property access on `null`) returns
  the state reached so far together with a `Completion`.
* `setTimeout` appends a task to the list of pending timers of the page; the
  page carries a clock in milliseconds and timers fire in order of their due
  time, first scheduled first among equal due times.
* JavaScript strings are modelled as Lean strings (sequences of characters);
  the regular expression of the script has no `u` flag and only distinguishes
  `@`, `.`, white space and everything else, so the difference between UTF-16
  code units and code points does not change any match result.
* `window.scrollY` is a finite double; it is modelled as a rational number, so
  that fractional offsets are covered and comparisons are exact.
* `console.log` has no effect on the modelled state and is left out.
-/

namespace GD2

/-! ## Common DOM vocabulary -/

/-- How a call ends: normally, or by a `TypeError` raised on a `null` access. -/
inductive Completion where
  | normal
  | typeError
  deriving DecidableEq, Repr

/-- The class tokens of an element, in order (`DOMTokenList`). -/
abbrev ClassList := List String

/-- The method `classList.contains(token)`. -/
def ClassList.contains (cl : ClassList) (token : String) : Bool :=
  cl.any (fun t => t == token)

/-- The method `classList.add(token)`: appends the token unless it is already there. -/
def ClassList.add (cl : ClassList) (token : String) : ClassList :=
  if ClassList.contains cl token then cl else cl ++ [token]

/-- The method `classList.remove(token)`. -/
def ClassList.remove (cl : ClassList) (token : String) : ClassList :=
  cl.filter (fun t => !(t == token))

/-- The method `classList.toggle(token)`. -/
def ClassList.toggle (cl : ClassList) (token : String) : ClassList :=
  if ClassList.contains cl token then ClassList.remove cl token else ClassList.add cl token

/-! ## Regular expression of the contact form -/

/-- ECMAScript `\s`: WhiteSpace (TAB, VT, FF, ZWNBSP and the space separators
of Unicode) together with LineTerminator (LF, CR, LS, PS). -/
def isRegExpSpace (c : Char) : Bool :=
  let n := c.toNat
  n == 9 || n == 10 || n == 11 || n == 12 || n == 13 || n == 32 || n == 160 ||
  n == 5760 || (8192 ≤ n && n ≤ 8202) || n == 8232 || n == 8233 || n == 8239 ||
  n == 8287 || n == 12288 || n == 65279

/-- The character class `[^\s@]`. -/
def notSpaceNorAt (c : Char) : Bool :=
  !(isRegExpSpace c) && !(c == '@')

/-- The pattern items that occur in the regular expressions of the script:
a literal character and a one-or-more repetition of a character class. -/
inductive Atom where
  | char (c : Char)
  | plusClass (p : Char → Bool)

/-- Backtracking match of a sequence of items against the whole rest of the
input (the pattern is anchored by `^` and `$`, without the `m` flag). A
repetition is greedy: it first tries to take one more character and then to
go on with the rest of the pattern. -/
def matchHere : List Char → List Atom → Bool
  | [], [] => true
  | [], _ :: _ => false
  | _ :: _, [] => false
  | x :: xs, Atom.char c :: rest => x == c && matchHere xs rest
  | x :: xs, Atom.plusClass p :: rest =>
      p x && (matchHere xs (Atom.plusClass p :: rest) || matchHere xs rest)

/-- The literal `/^[^\s@]+@[^\s@]+\.[^\s@]+$/`. -/
def emailRegex : List Atom :=
  [Atom.plusClass notSpaceNorAt, Atom.char '@', Atom.plusClass notSpaceNorAt,
   Atom.char '.', Atom.plusClass notSpaceNorAt]

/-- The call `emailRegex.test(s)`. -/
def emailRegexTest (s : String) : Bool :=
  matchHere s.toList emailRegex

/-- The shape `local@domain.tld` in the words of the specification: no white
space, exactly one `@`, a non-empty part before the `@`, and after the `@` a
`.` with at least one character before it and at least one after it. -/
def EmailShape (s : List Char) : Prop :=
  (∀ c ∈ s, isRegExpSpace c = false) ∧ s.count '@' = 1 ∧
  ∃ loc dom, s = loc ++ '@' :: dom ∧ loc ≠ [] ∧
    ∃ d t, dom = d ++ '.' :: t ∧ d ≠ [] ∧ t ≠ []

/-! ## Status message, contact form and timers -/

/-- The status element (`#formMessage`): the two properties the script writes. -/
structure MessageEl where
  textContent : String
  className : String
  deriving DecidableEq, Repr

/-- A child node of the submit button: a text node, or an element with its
tag, its class and the text of its descendants. -/
inductive Node where
  | text (data : String)
  | element (tag : String) (className : String) (inner : String)
  deriving DecidableEq, Repr

/-- The contribution of one child node to `textContent`. -/
def Node.textContent : Node → String
  | Node.text data => data
  | Node.element _ _ inner => inner

/-- The submit button of the form. -/
structure Button where
  disabled : Bool
  childNodes : List Node
  deriving DecidableEq, Repr

/-- Getter of `button.textContent`: the text of all descendants, in order. -/
def Button.textContent (b : Button) : String :=
  String.join (b.childNodes.map Node.textContent)

/-- Setter of `button.textContent`: the children are replaced by one text
node, or by nothing when the string is empty. -/
def Button.setTextContent (b : Button) (s : String) : Button :=
  { b with childNodes := if s = "" then [] else [Node.text s] }

/-- The nodes that `innerHTML = '<span class="loading"></span> Sending...'`
produces. -/
def loadingMarkup : List Node :=
  [Node.element "span" "loading" "", Node.text " Sending..."]

/-- A text control of the form. -/
structure Field where
  value : String
  defaultValue : String
  deriving DecidableEq, Repr

/-- The contact form: its four named controls (absent when the form has no
control of that name) and the first `button[type="submit"]` inside it. -/
structure FormEl where
  name : Option Field
  email : Option Field
  subject : Option Field
  message : Option Field
  submitBtn : Option Button
  deriving DecidableEq, Repr

/-- The method `form.reset()`: every control goes back to its default value. -/
def FormEl.reset (f : FormEl) : FormEl :=
  let r : Field → Field := fun c => { c with value := c.defaultValue }
  { f with name := f.name.map r, email := f.email.map r,
           subject := f.subject.map r, message := f.message.map r }

/-- The object `data` of `handleSubmit`; `FormData.get` gives `null` (here
`none`) for a name without control. -/
structure SubmissionData where
  name : Option String
  email : Option String
  subject : Option String
  message : Option String
  deriving DecidableEq, Repr

/-- The four `formData.get(...)` calls of `handleSubmit`. -/
def FormEl.formData (f : FormEl) : SubmissionData :=
  { name := f.name.map Field.value, email := f.email.map Field.value,
    subject := f.subject.map Field.value, message := f.message.map Field.value }

/-- The callbacks the contact form hands to `setTimeout`, with the variables
each closure captures. -/
inductive TimerTask where
  | revertMessage (elementId : String)
  | sendComplete (originalText : String) (data : SubmissionData)
  deriving DecidableEq, Repr

/-- A pending timer. -/
structure Timer where
  due : Nat
  task : TimerTask
  deriving DecidableEq, Repr

/-- The part of the page the contact form works on. `form` is `this.form` of
a `ContactFormHandler` whose listener is registered, which `init` does only
when the form exists. -/
structure Page where
  now : Nat
  timers : List Timer
  formMessage : Option MessageEl
  form : FormEl
  deriving DecidableEq, Repr

/-- The lookup `document.getElementById` for the status element; this part of the page
holds no other element with an id. -/
def Page.getElementById (p : Page) (elementId : String) : Option MessageEl :=
  if elementId = "formMessage" then p.formMessage else none

/-- Write back an element obtained from `Page.getElementById`. -/
def Page.setElement (p : Page) (elementId : String) (el : MessageEl) : Page :=
  if elementId = "formMessage" then { p with formMessage := some el } else p

/-- The call `setTimeout(task, delay)`. -/
def setTimeout (task : TimerTask) (delay : Nat) (p : Page) : Page :=
  { p with timers := p.timers ++ [{ due := p.now + delay, task := task }] }

/-- The test `!v` for a value that is `null` or a string. -/
def isFalsy (v : Option String) : Bool :=
  match v with
  | none => true
  | some s => s == ""

/-- The conversion `String(v)` for a value that is `null` or a string. -/
def toJSString (v : Option String) : String :=
  match v with
  | none => "null"
  | some s => s

namespace utils

/-- The function `utils.showMessage(elementId, message, type)`. -/
def showMessage (elementId : String) (message : String) (type : String) (p : Page) : Page :=
  match p.getElementById elementId with
  | none => p
  | some messageEl =>
      let messageEl1 := { messageEl with textContent := message }
      let messageEl2 := { messageEl1 with className := "form-message " ++ type }
      setTimeout (TimerTask.revertMessage elementId) 5000 (p.setElement elementId messageEl2)

end utils

namespace ContactFormHandler

/-- The method `validateForm(data)`: the page after the call and the returned boolean. -/
def validateForm (data : SubmissionData) (p : Page) : Page × Bool :=
  if isFalsy data.name || isFalsy data.email || isFalsy data.subject || isFalsy data.message then
    (utils.showMessage "formMessage" "Please fill in all fields." "error" p, false)
  else if !(emailRegexTest (toJSString data.email)) then
    (utils.showMessage "formMessage" "Please enter a valid email address." "error" p, false)
  else
    (p, true)

/-- The method `submitForm(data)`. The method is `async`: a `TypeError` on a missing
submit button rejects the returned promise. -/
def submitForm (data : SubmissionData) (p : Page) : Page × Completion :=
  match p.form.submitBtn with
  | none => (p, Completion.typeError)
  | some submitBtn =>
      let originalText := submitBtn.textContent
      let submitBtn1 := { submitBtn with disabled := true }
      let submitBtn2 := { submitBtn1 with childNodes := loadingMarkup }
      (setTimeout (TimerTask.sendComplete originalText data) 1500
        { p with form := { p.form with submitBtn := some submitBtn2 } }, Completion.normal)

/-- The method `handleSubmit(e)`; the promise of `submitForm` is dropped. -/
def handleSubmit (p : Page) : Page :=
  let data := p.form.formData
  let r := validateForm data p
  if !r.2 then r.1 else (submitForm data r.1).1

end ContactFormHandler

/-- The body of a timer callback. -/
def runTask (task : TimerTask) (p : Page) : Page :=
  match task with
  | TimerTask.revertMessage elementId =>
      match p.getElementById elementId with
      | none => p
      | some messageEl => p.setElement elementId { messageEl with className := "form-message" }
  | TimerTask.sendComplete originalText _ =>
      let p1 := utils.showMessage "formMessage"
        "Thank you for your message! We will get back to you soon." "success" p
      let p2 := { p1 with form := p1.form.reset }
      match p2.form.submitBtn with
      | none => p2
      | some submitBtn =>
          let submitBtn1 := { submitBtn with disabled := false }
          { p2 with form := { p2.form with submitBtn := some (submitBtn1.setTextContent originalText) } }

/-- The timer that fires next, and the timers left: the one with the least
due time, the first scheduled among equals. -/
def popNext : List Timer → Option (Timer × List Timer)
  | [] => none
  | t :: rest =>
      match popNext rest with
      | none => some (t, [])
      | some (u, rest1) => if t.due ≤ u.due then some (t, rest) else some (u, t :: rest1)

/-- Let the next pending timer fire (the clock moves to its due time). -/
def fireNext (p : Page) : Page :=
  match popNext p.timers with
  | none => p
  | some (t, rest) => runTask t.task { p with now := max p.now t.due, timers := rest }

/-- Work a timer still stands for: a send timer schedules a revert timer. -/
def TimerTask.weight : TimerTask → Nat
  | TimerTask.revertMessage _ => 1
  | TimerTask.sendComplete _ _ => 2

/-- Total work of the pending timers: a bound on the number of firings. -/
def pendingWork (ts : List Timer) : Nat :=
  (ts.map (fun t => t.task.weight)).sum

/-- Fire, in order, the timers that are due at time `t` or before; at most
`fuel` of them. -/
def runUntilAux : Nat → Nat → Page → Page
  | 0, t, p => { p with now := max p.now t }
  | fuel + 1, t, p =>
      match popNext p.timers with
      | none => { p with now := max p.now t }
      | some (tm, _) =>
          if tm.due ≤ t then runUntilAux fuel t (fireNext p) else { p with now := max p.now t }

/-- Let the clock advance to time `t`, firing every timer due on the way. -/
def runUntil (t : Nat) (p : Page) : Page :=
  runUntilAux (pendingWork p.timers) t p

/-- What can happen to the contact form: the user types into the four
controls, the user submits the form (a click on the submit button, or Enter in
a control), or the next timer fires. -/
inductive FormEvent where
  | input (name email subject message : String)
  | submit
  | timer
  deriving DecidableEq, Repr

/-- The form after the user has typed the given values into its controls. -/
def FormEl.input (f : FormEl) (name email subject message : String) : FormEl :=
  { f with name := f.name.map (fun c => { c with value := name }),
           email := f.email.map (fun c => { c with value := email }),
           subject := f.subject.map (fun c => { c with value := subject }),
           message := f.message.map (fun c => { c with value := message }) }

/-- Whether the submit button is there and disabled. -/
def Page.submitDisabled (p : Page) : Bool :=
  match p.form.submitBtn with
  | none => false
  | some b => b.disabled

/-- The page after one event. The button the script looks up is the submit
button of the form; while it is disabled the browser does not turn a click on
it or Enter in a control into a submit event, so `handleSubmit` does not run. -/
def applyEvent (e : FormEvent) (p : Page) : Page :=
  match e with
  | FormEvent.input name email subject message =>
      { p with form := p.form.input name email subject message }
  | FormEvent.submit => if p.submitDisabled then p else ContactFormHandler.handleSubmit p
  | FormEvent.timer => fireNext p

/-- The page after a sequence of events. -/
def runEvents (events : List FormEvent) (p : Page) : Page :=
  events.foldl (fun p e => applyEvent e p) p

/-- Whether a timer is the send timer of a submission. -/
def Timer.isSend (t : Timer) : Bool :=
  match t.task with
  | TimerTask.sendComplete _ _ => true
  | TimerTask.revertMessage _ => false

/-- The pending send timers of a page. -/
def Page.pendingSends (p : Page) : List Timer :=
  p.timers.filter Timer.isSend

/-! ## Navigation -/

/-- The method `s.startsWith(pre)`. -/
def jsStartsWith (s pre : String) : Bool :=
  pre.toList.isPrefixOf s.toList

/-- The method `s.substring(n)`. -/
def jsSubstring (s : String) (n : Nat) : String :=
  String.mk (s.toList.drop n)

/-- An element of class `nav-link`: its `href` attribute (`null` when the
attribute is missing) and its class tokens. -/
structure NavLink where
  href : Option String
  classList : ClassList
  deriving DecidableEq, Repr

/-- Whether a nav link carries the class `active`. -/
def NavLink.isActive (l : NavLink) : Bool :=
  ClassList.contains l.classList "active"

/-- The fields of a `NavigationHandler` together with the parts of the window
and the document its handlers read. `navLinks` is the list of the elements of
class `nav-link`, which the script never changes; an element reference is an
index into it. The menu panel and the toggle button are elements of their own,
not nav links. `elementIds` are the ids present in the document and
`scrollRequests` records the targets handed to `utils.scrollToElement`, whose
smooth scrolling happens after the handler has returned. -/
structure NavigationHandler where
  navbar : Option ClassList
  navLinks : List NavLink
  navMenu : Option ClassList
  mobileToggle : Option ClassList
  scrollY : ℚ
  elementIds : List String
  scrollRequests : List String
  deriving DecidableEq, Repr

/-- An entry handed to the callback of the section observer. -/
structure SectionEntry where
  sectionId : String
  isIntersecting : Bool
  deriving DecidableEq, Repr

/-- A reference to an element handed to `setActiveLink`: one of the nav links,
given by its index, or an element that is not among the nav links. -/
inductive ElementRef where
  | navLink (index : Nat)
  | other
  deriving DecidableEq, Repr

/-- What a call of `document.querySelector` does: it raises a `SyntaxError`
for a selector that does not parse, returns `null`, or returns an element. -/
inductive QueryResult where
  | syntaxError
  | null
  | element (ref : ElementRef)
  deriving DecidableEq, Repr

/-- How the callback of the section observer ends: after its last entry, or
by the `SyntaxError` of `document.querySelector`, which leaves the `forEach`. -/
inductive CallbackEnd where
  | completed
  | syntaxError
  deriving DecidableEq, Repr

namespace NavigationHandler

/-- The closure `handleScroll` of `setupScrollEffect`. -/
def handleScroll (n : NavigationHandler) : NavigationHandler × Completion :=
  match n.navbar with
  | none => (n, Completion.typeError)
  | some cl =>
      if n.scrollY > 50 then
        ({ n with navbar := some (ClassList.add cl "scrolled") }, Completion.normal)
      else
        ({ n with navbar := some (ClassList.remove cl "scrolled") }, Completion.normal)

/-- A scroll event at offset `y`, once the debounce delay has passed. -/
def onScroll (y : ℚ) (n : NavigationHandler) : NavigationHandler × Completion :=
  handleScroll { n with scrollY := y }

/-- The method `setActiveLink(activeLink)`: every nav link loses the class
`active`, then the given element gets it; for an element that is not a nav
link the class it gets is outside the state. -/
def setActiveLink (activeLink : ElementRef) (n : NavigationHandler) : NavigationHandler :=
  let cleared := n.navLinks.map
    (fun link => { link with classList := ClassList.remove link.classList "active" })
  match activeLink with
  | ElementRef.navLink index =>
      let marked := List.modify
        (fun link => { link with classList := ClassList.add link.classList "active" })
        index cleared
      { n with navLinks := marked }
  | ElementRef.other => { n with navLinks := cleared }

/-- The method `toggleMobileMenu()`. -/
def toggleMobileMenu (n : NavigationHandler) : NavigationHandler × Completion :=
  match n.navMenu with
  | none => (n, Completion.typeError)
  | some menu =>
      let n1 := { n with navMenu := some (ClassList.toggle menu "active") }
      match n1.mobileToggle with
      | none => (n1, Completion.typeError)
      | some toggle =>
          ({ n1 with mobileToggle := some (ClassList.toggle toggle "active") }, Completion.normal)

/-- The click listener that `setupMobileMenu` registers when the toggle
button exists. -/
def onMobileToggleClick (n : NavigationHandler) : NavigationHandler × Completion :=
  match n.mobileToggle with
  | none => (n, Completion.normal)
  | some _ => toggleMobileMenu n

/-- The click listener that `setupNavigation` registers on the nav link with
index `i`. -/
def onNavLinkClick (i : Nat) (n : NavigationHandler) : NavigationHandler × Completion :=
  match n.navLinks[i]? with
  | none => (n, Completion.normal)
  | some link =>
      match link.href with
      | none => (n, Completion.typeError)
      | some href =>
          if jsStartsWith href "#" then
            let targetId := jsSubstring href 1
            if n.elementIds.contains targetId then
              let n1 := { n with scrollRequests := n.scrollRequests ++ [targetId] }
              let n2 := setActiveLink (ElementRef.navLink i) n1
              match n2.navMenu with
              | none => (n2, Completion.typeError)
              | some menu =>
                  if ClassList.contains menu "active" then toggleMobileMenu n2
                  else (n2, Completion.normal)
            else (n, Completion.normal)
          else (n, Completion.normal)

/-- The selector text the callback builds from a section id, by plain
concatenation. -/
def sectionSelector (sectionId : String) : String :=
  ".nav-link[href=\"#" ++ sectionId ++ "\"]"

/-- Whether a section id passes unchanged through the quoted string of the
selector: it has no double quote (34), which would end the string, no
backslash (92), which starts an escape, no line feed, form feed or carriage
return (10, 12, 13), which make the string invalid, and no null character (0),
which CSS replaces. For such an id the selector parses and asks for the
elements of class `nav-link` whose `href` attribute is `#` followed by the id. -/
def selectorSafe (sectionId : String) : Bool :=
  sectionId.toList.all (fun c =>
    !(c.toNat == 34 || c.toNat == 92 || c.toNat == 10 || c.toNat == 12 ||
      c.toNat == 13 || c.toNat == 0))

/-- The first nav link whose `href` attribute is `#sectionId`. -/
def correspondingLink (links : List NavLink) (sectionId : String) : Option Nat :=
  links.findIdx? (fun link => link.href == some ("#" ++ sectionId))

/-- The call `document.querySelector` on the selector built from a section id.
For an id that passes unchanged through the selector the result is the first
matching nav link or `null`. For any other id the outcome depends on how the
selector engine of the browser reads the text (a `SyntaxError` for an id with
a stray double quote, another selector for an id that closes the quote and
the bracket); the engine is a parameter, given the nav links and the selector
text. -/
def querySelector (engine : List NavLink → String → QueryResult) (links : List NavLink)
    (sectionId : String) : QueryResult :=
  if selectorSafe sectionId then
    match correspondingLink links sectionId with
    | some index => QueryResult.element (ElementRef.navLink index)
    | none => QueryResult.null
  else engine links (sectionSelector sectionId)

/-- The callback of the `IntersectionObserver` of `highlightActiveSection`: the
entries are handled in order, and a `SyntaxError` of `document.querySelector`
ends the callback with the remaining entries unhandled. -/
def sectionCallback (engine : List NavLink → String → QueryResult) :
    List SectionEntry → NavigationHandler → NavigationHandler × CallbackEnd
  | [], n => (n, CallbackEnd.completed)
  | entry :: rest, n =>
      if entry.isIntersecting then
        match querySelector engine n.navLinks entry.sectionId with
        | QueryResult.syntaxError => (n, CallbackEnd.syntaxError)
        | QueryResult.null => sectionCallback engine rest n
        | QueryResult.element link =>
            sectionCallback engine rest (setActiveLink link n)
      else sectionCallback engine rest n

end NavigationHandler

/-- At most one nav link is active. -/
def AtMostOneActive (links : List NavLink) : Prop :=
  ∀ i j (hi : i < links.length) (hj : j < links.length),
    links[i].isActive = true → links[j].isActive = true → i = j

/-- Exactly the nav link with index `k` is active. -/
def OnlyActive (links : List NavLink) (k : Nat) : Prop :=
  k < links.length ∧ ∀ j (hj : j < links.length), links[j].isActive = true ↔ j = k

/-! ## Preview modal -/

/-- The values an expression of the script can take where more than strings
occur: the result of a property lookup on an object literal. -/
inductive JSValue where
  | undefined
  | string (s : String)
  | nativeFunction (name : String)
  | objectPrototype
  deriving DecidableEq, Repr

/-- Truthiness (`ToBoolean`). -/
def JSValue.truthy : JSValue → Bool
  | JSValue.undefined => false
  | JSValue.string s => !(s == "")
  | JSValue.nativeFunction _ => true
  | JSValue.objectPrototype => true

/-- The operator `a || b`. -/
def JSValue.or (a b : JSValue) : JSValue :=
  if a.truthy then a else b

/-- The string an assignment to `textContent` stores (`ToString`). The text
of a built-in function is implementation-defined up to white space; the form
of V8 is taken. -/
def JSValue.toDisplayString : JSValue → String
  | JSValue.undefined => "undefined"
  | JSValue.string s => s
  | JSValue.nativeFunction name => "function " ++ name ++ "() \x7b [native code] \x7d"
  | JSValue.objectPrototype => "[object Object]"

/-- The function-valued properties of `Object.prototype` (ECMAScript, with
Annex B): property key and name of the function. -/
def objectPrototypeMethods : List (String × String) :=
  [("constructor", "Object"), ("hasOwnProperty", "hasOwnProperty"),
   ("isPrototypeOf", "isPrototypeOf"), ("propertyIsEnumerable", "propertyIsEnumerable"),
   ("toLocaleString", "toLocaleString"), ("toString", "toString"), ("valueOf", "valueOf"),
   ("__defineGetter__", "__defineGetter__"), ("__defineSetter__", "__defineSetter__"),
   ("__lookupGetter__", "__lookupGetter__"), ("__lookupSetter__", "__lookupSetter__")]

/-- Property lookup on `Object.prototype`; `__proto__` is an accessor that
gives the prototype of the receiver, here `Object.prototype` itself. -/
def objectPrototypeGet (key : String) : JSValue :=
  match objectPrototypeMethods.lookup key with
  | some name => JSValue.nativeFunction name
  | none => if key = "__proto__" then JSValue.objectPrototype else JSValue.undefined

/-- The own properties of the object literal `titles` of the global `openPDF`. -/
def titles : List (String × String) :=
  [("Great_Depression_2_Ch_1.pdf", "Great Depression 2 - Chapter 1"),
   ("Great_Depression_2_Ch_2.pdf", "Great Depression 2 - Chapter 2")]

/-- The lookup `titles[pdfPath]`: own properties first, then the prototype
chain of an object literal. -/
def titlesGet (pdfPath : String) : JSValue :=
  match titles.lookup pdfPath with
  | some title => JSValue.string title
  | none => objectPrototypeGet pdfPath

/-- The fields of a `PDFViewerHandler`, with the properties of the three
elements it holds and `document.body.style.overflow`. -/
structure PDFViewerHandler where
  modal : Option ClassList
  modalTitle : Option String
  pdfIframe : Option String
  currentPDF : Option String
  bodyOverflow : String
  deriving DecidableEq, Repr

namespace PDFViewerHandler

/-- The method `openPDF(pdfPath, title)`, whose `title` defaults to `PDF Viewer`. -/
def openPDF (pdfPath : String) (title : JSValue) (v : PDFViewerHandler) :
    PDFViewerHandler × Completion :=
  let title := if title = JSValue.undefined then JSValue.string "PDF Viewer" else title
  let v1 := { v with currentPDF := some pdfPath }
  match v1.modalTitle with
  | none => (v1, Completion.typeError)
  | some _ =>
      let v2 := { v1 with modalTitle := some title.toDisplayString }
      match v2.pdfIframe with
      | none => (v2, Completion.typeError)
      | some _ =>
          let v3 := { v2 with pdfIframe := some pdfPath }
          match v3.modal with
          | none => (v3, Completion.typeError)
          | some cl =>
              ({ v3 with modal := some (ClassList.add cl "active"), bodyOverflow := "hidden" },
                Completion.normal)

/-- The method `closeModal()`. -/
def closeModal (v : PDFViewerHandler) : PDFViewerHandler × Completion :=
  match v.modal with
  | none => (v, Completion.typeError)
  | some cl =>
      let v1 := { v with modal := some (ClassList.remove cl "active") }
      match v1.pdfIframe with
      | none => (v1, Completion.typeError)
      | some _ =>
          ({ v1 with pdfIframe := some "", currentPDF := none, bodyOverflow := "" },
            Completion.normal)

/-- The click listener of `setupModalClose`; `targetIsModal` says whether the
event target is the modal itself (the backdrop). -/
def onModalClick (targetIsModal : Bool) (v : PDFViewerHandler) :
    PDFViewerHandler × Completion :=
  if targetIsModal then closeModal v else (v, Completion.normal)

/-- The keydown listener of `setupModalClose`. -/
def onKeydown (key : String) (v : PDFViewerHandler) : PDFViewerHandler × Completion :=
  if key = "Escape" then
    match v.modal with
    | none => (v, Completion.typeError)
    | some cl => if ClassList.contains cl "active" then closeModal v else (v, Completion.normal)
  else (v, Completion.normal)

end PDFViewerHandler

/-- The global `openPDF(pdfPath)`; `pdfViewer` is the global variable, unset
until `App.start` has constructed the viewer. -/
def openPDF (pdfPath : String) (pdfViewer : Option PDFViewerHandler) :
    Option PDFViewerHandler × Completion :=
  let title := (titlesGet pdfPath).or (JSValue.string "PDF Viewer")
  match pdfViewer with
  | none => (none, Completion.typeError)
  | some v =>
      let r := PDFViewerHandler.openPDF pdfPath title v
      (some r.1, r.2)

/-- The global `closeModal()`. -/
def closeModal (pdfViewer : Option PDFViewerHandler) : Option PDFViewerHandler × Completion :=
  match pdfViewer with
  | none => (none, Completion.typeError)
  | some v =>
      let r := PDFViewerHandler.closeModal v
      (some r.1, r.2)

/-! ## Scroll animations -/

/-- The value of `style.transition` of a card: some CSS text, or the staggered
transition that `setupScrollAnimations` builds from the index of the card
(delay `index * 0.1` seconds). -/
inductive TransitionValue where
  | css (text : String)
  | staggered (index : Nat)
  deriving DecidableEq, Repr

/-- The inline style of a content card. -/
structure CardStyle where
  opacity : String
  transform : String
  transition : TransitionValue
  deriving DecidableEq, Repr

/-- An entry handed to the callback of the card observer; the target is an
observed card, given by its index. -/
structure CardEntry where
  target : Nat
  isIntersecting : Bool
  deriving DecidableEq, Repr

namespace AnimationHandler

/-- The loop of `setupScrollAnimations` over the content cards. -/
def setupScrollAnimations (cards : List CardStyle) : List CardStyle :=
  cards.enum.map (fun ic =>
    { ic.2 with opacity := "0", transform := "translateY(30px)",
                transition := TransitionValue.staggered ic.1 })

/-- The callback of the `IntersectionObserver` of `setupScrollAnimations`. -/
def cardCallback (entries : List CardEntry) (cards : List CardStyle) : List CardStyle :=
  entries.foldl
    (fun cards entry =>
      if entry.isIntersecting then
        List.modify (fun card => { card with opacity := "1", transform := "translateY(0)" })
          entry.target cards
      else cards)
    cards

/-- The cards after a sequence of observer callbacks. -/
def runCallbacks (callbacks : List (List CardEntry)) (cards : List CardStyle) : List CardStyle :=
  callbacks.foldl (fun cards entries => cardCallback entries cards) cards

end AnimationHandler

/-! ## Application start -/

/-- The elements of the page that the controllers look up when they are
constructed; an element missing from the page is `none`. -/
structure Document where
  navbar : Option ClassList
  navLinks : List NavLink
  navMenu : Option ClassList
  mobileToggle : Option ClassList
  elementIds : List String
  scrollY : ℚ
  pdfModal : Option ClassList
  modalTitle : Option String
  pdfIframe : Option String
  bodyOverflow : String
  contactForm : Option FormEl
  formMessage : Option MessageEl
  currentYear : Option String
  cards : List CardStyle
  bodyClassList : ClassList
  deriving DecidableEq, Repr

/-- The listeners and observers the controllers register. -/
inductive Listener where
  | windowScroll
  | navLinkClick (index : Nat)
  | mobileToggleClick
  | sectionObserver
  | modalClick
  | documentKeydown
  | formSubmit
  | cardObserver
  deriving DecidableEq, Repr

/-- The field of a `ContactFormHandler`. -/
structure ContactFormHandler where
  form : Option FormEl
  deriving DecidableEq, Repr

/-- The fields of `App`, the global `pdfViewer`, the registered listeners and
the parts of the page that `start` writes. -/
structure App where
  navigation : Option NavigationHandler
  pdfViewer : Option PDFViewerHandler
  contactForm : Option ContactFormHandler
  animations : Option Unit
  listeners : List Listener
  cards : List CardStyle
  currentYear : Option String
  bodyClassList : ClassList
  deriving DecidableEq, Repr

/-- The construction `new NavigationHandler()`: the lookups of the constructor and the
listeners of `init`. None of the four setup methods touches an element that
can be `null` before an event arrives. -/
def NavigationHandler.create (doc : Document) : NavigationHandler × List Listener :=
  let handler : NavigationHandler :=
    { navbar := doc.navbar, navLinks := doc.navLinks, navMenu := doc.navMenu,
      mobileToggle := doc.mobileToggle, scrollY := doc.scrollY,
      elementIds := doc.elementIds, scrollRequests := [] }
  let scroll := [Listener.windowScroll]
  let navigation := (List.range handler.navLinks.length).map Listener.navLinkClick
  let mobile := match handler.mobileToggle with
    | some _ => [Listener.mobileToggleClick]
    | none => []
  (handler, scroll ++ navigation ++ mobile ++ [Listener.sectionObserver])

/-- The method `setupModalClose()`: the listeners it registers; `this.modal.addEventListener`
is the first statement and is not guarded. -/
def PDFViewerHandler.setupModalClose (v : PDFViewerHandler) : List Listener × Completion :=
  match v.modal with
  | none => ([], Completion.typeError)
  | some _ => ([Listener.modalClick, Listener.documentKeydown], Completion.normal)

/-- The construction `new PDFViewerHandler()`. -/
def PDFViewerHandler.create (doc : Document) :
    (PDFViewerHandler × List Listener) × Completion :=
  let handler : PDFViewerHandler :=
    { modal := doc.pdfModal, modalTitle := doc.modalTitle, pdfIframe := doc.pdfIframe,
      currentPDF := none, bodyOverflow := doc.bodyOverflow }
  let r := PDFViewerHandler.setupModalClose handler
  ((handler, r.1), r.2)

/-- The construction `new ContactFormHandler()`. -/
def ContactFormHandler.create (doc : Document) : ContactFormHandler × List Listener :=
  let handler : ContactFormHandler := { form := doc.contactForm }
  match handler.form with
  | some _ => (handler, [Listener.formSubmit])
  | none => (handler, [])

/-- The method `App.start()` on a page, in the year `year`. The ripple listeners of
`setupHoverEffects` and the anchor listeners of `setupSmoothScroll` are
registered on selections that may be empty; they cannot fail and are not part
of the state. -/
def App.start (year : Nat) (doc : Document) : App × Completion :=
  let app0 : App :=
    { navigation := none, pdfViewer := none, contactForm := none, animations := none,
      listeners := [], cards := doc.cards, currentYear := doc.currentYear,
      bodyClassList := doc.bodyClassList }
  let nav := NavigationHandler.create doc
  let app1 := { app0 with navigation := some nav.1, listeners := app0.listeners ++ nav.2 }
  match PDFViewerHandler.create doc with
  | (r, Completion.typeError) =>
      ({ app1 with listeners := app1.listeners ++ r.2 }, Completion.typeError)
  | (r, Completion.normal) =>
      let app2 := { app1 with pdfViewer := some r.1, listeners := app1.listeners ++ r.2 }
      let form := ContactFormHandler.create doc
      let app3 := { app2 with contactForm := some form.1, listeners := app2.listeners ++ form.2 }
      let app4 := { app3 with animations := some (),
                              cards := AnimationHandler.setupScrollAnimations app3.cards,
                              listeners := app3.listeners ++ [Listener.cardObserver] }
      let app5 := { app4 with currentYear := app4.currentYear.map (fun _ => toString year) }
      ({ app5 with bodyClassList := ClassList.add app5.bodyClassList "loaded" },
        Completion.normal)

/-! ## Auxiliary notions of the properties -/

/-- Whether some entry of a callback reports the card `i` as intersecting. -/
def hitsCard (i : Nat) (entries : List CardEntry) : Bool :=
  entries.any (fun e => e.target == i && e.isIntersecting)

/-- The style of a card once it has been revealed. -/
def revealed (card : CardStyle) : CardStyle :=
  { card with opacity := "1", transform := "translateY(0)" }

/-- The text of the submit button, when the form has one. -/
def Page.label (p : Page) : Option String :=
  p.form.submitBtn.map Button.textContent

/-- What every event of a run keeps true: the button exists, every pending send timer has captured
the label `original`, at most one send is pending, the label is `original`
whenever no send is pending, and no send is pending while the button is
enabled. -/
def LabelInvariant (original : String) (p : Page) : Prop :=
  ∃ b, p.form.submitBtn = some b ∧
    (∀ t ∈ p.timers, ∀ o d, t.task = TimerTask.sendComplete o d → o = original) ∧
    p.pendingSends.length ≤ 1 ∧
    (p.pendingSends = [] → b.textContent = original) ∧
    (b.disabled = false → p.pendingSends = [])

/-- The link after `classList.remove('active')`. -/
def NavLink.cleared (l : NavLink) : NavLink :=
  { l with classList := ClassList.remove l.classList "active" }

/-- The link after `classList.add('active')`. -/
def NavLink.marked (l : NavLink) : NavLink :=
  { l with classList := ClassList.add l.classList "active" }

/-- The step of the section callback for an entry whose id passes unchanged
through the selector. -/
def sectionStep (n : NavigationHandler) (entry : SectionEntry) : NavigationHandler :=
  if entry.isIntersecting then
    match NavigationHandler.correspondingLink n.navLinks entry.sectionId with
    | some link => NavigationHandler.setActiveLink (ElementRef.navLink link) n
    | none => n
  else n

/-! ## Properties -/

/-! ### The regular expression and the shape of an address -/

theorem matchHere_nil_iff (s : List Char) : matchHere s [] = true ↔ s = [] := by
  cases s <;> simp [matchHere]

theorem matchHere_char_iff (s : List Char) (c : Char) (rest : List Atom) :
    matchHere s (Atom.char c :: rest) = true ↔ ∃ t, s = c :: t ∧ matchHere t rest = true := by
  cases s with
  | nil => simp [matchHere]
  | cons x xs =>
      simp only [matchHere, Bool.and_eq_true, beq_iff_eq, List.cons.injEq]
      constructor
      · rintro ⟨rfl, h⟩
        exact ⟨xs, ⟨rfl, rfl⟩, h⟩
      · rintro ⟨t, ⟨rfl, rfl⟩, h⟩
        exact ⟨rfl, h⟩

theorem matchHere_plus_iff (p : Char → Bool) (rest : List Atom) (s : List Char) :
    matchHere s (Atom.plusClass p :: rest) = true ↔
      ∃ a b, s = a ++ b ∧ a ≠ [] ∧ (∀ c ∈ a, p c = true) ∧ matchHere b rest = true := by
  induction s with
  | nil =>
      simp only [matchHere, Bool.false_eq_true, false_iff]
      rintro ⟨a, b, h, ha, -⟩
      cases a with
      | nil => exact ha rfl
      | cons y a1 => simp at h
  | cons x xs ih =>
      simp only [matchHere, Bool.and_eq_true, Bool.or_eq_true]
      constructor
      · rintro ⟨hx, h | h⟩
        · obtain ⟨a, b, rfl, -, hall, hb⟩ := ih.mp h
          refine ⟨x :: a, b, rfl, by simp, ?_, hb⟩
          intro c hc
          rcases List.mem_cons.mp hc with rfl | hc
          · exact hx
          · exact hall c hc
        · refine ⟨[x], xs, rfl, by simp, ?_, h⟩
          intro c hc
          rcases List.mem_cons.mp hc with rfl | hc
          · exact hx
          · simp at hc
      · rintro ⟨a, b, h, ha, hall, hb⟩
        cases a with
        | nil => exact absurd rfl ha
        | cons y a1 =>
            simp only [List.cons_append, List.cons.injEq] at h
            obtain ⟨rfl, rfl⟩ := h
            refine ⟨hall x (List.mem_cons_self _ _), ?_⟩
            cases a1 with
            | nil => right; simpa using hb
            | cons z a2 =>
                left
                refine ih.mpr ⟨z :: a2, b, rfl, by simp, ?_, hb⟩
                intro c hc
                exact hall c (List.mem_cons_of_mem _ hc)

theorem notSpaceNorAt_iff (c : Char) :
    notSpaceNorAt c = true ↔ isRegExpSpace c = false ∧ c ≠ '@' := by
  simp [notSpaceNorAt]

/-- What the regular expression accepts, with the three repetitions named. -/
theorem emailRegex_iff_parts (s : List Char) :
    matchHere s emailRegex = true ↔
      ∃ l d t, s = l ++ '@' :: (d ++ '.' :: t) ∧ l ≠ [] ∧ d ≠ [] ∧ t ≠ [] ∧
        (∀ c ∈ l, notSpaceNorAt c = true) ∧ (∀ c ∈ d, notSpaceNorAt c = true) ∧
        (∀ c ∈ t, notSpaceNorAt c = true) := by
  unfold emailRegex
  constructor
  · intro h
    obtain ⟨l, r1, rfl, hl, hla, h1⟩ := (matchHere_plus_iff _ _ _).mp h
    obtain ⟨r2, rfl, h2⟩ := (matchHere_char_iff _ _ _).mp h1
    obtain ⟨d, r3, rfl, hd, hda, h3⟩ := (matchHere_plus_iff _ _ _).mp h2
    obtain ⟨r4, rfl, h4⟩ := (matchHere_char_iff _ _ _).mp h3
    obtain ⟨t, r5, rfl, ht, hta, h5⟩ := (matchHere_plus_iff _ _ _).mp h4
    obtain rfl := (matchHere_nil_iff _).mp h5
    exact ⟨l, d, t, by simp, hl, hd, ht, hla, hda, hta⟩
  · rintro ⟨l, d, t, rfl, hl, hd, ht, hla, hda, hta⟩
    refine (matchHere_plus_iff _ _ _).mpr ⟨l, _, rfl, hl, hla, ?_⟩
    refine (matchHere_char_iff _ _ _).mpr ⟨_, rfl, ?_⟩
    refine (matchHere_plus_iff _ _ _).mpr ⟨d, _, rfl, hd, hda, ?_⟩
    refine (matchHere_char_iff _ _ _).mpr ⟨_, rfl, ?_⟩
    refine (matchHere_plus_iff _ _ _).mpr ⟨t, [], by simp, ht, hta, ?_⟩
    exact (matchHere_nil_iff _).mpr rfl

/-- The regular expression accepts exactly the strings of the shape the
specification describes. -/
theorem emailRegex_iff_shape (s : List Char) :
    matchHere s emailRegex = true ↔ EmailShape s := by
  rw [emailRegex_iff_parts]
  constructor
  · rintro ⟨l, d, t, rfl, hl, hd, ht, hla, hda, hta⟩
    have hl0 : l.count '@' = 0 :=
      List.count_eq_zero.mpr (fun h => ((notSpaceNorAt_iff _).mp (hla _ h)).2 rfl)
    have hd0 : d.count '@' = 0 :=
      List.count_eq_zero.mpr (fun h => ((notSpaceNorAt_iff _).mp (hda _ h)).2 rfl)
    have ht0 : t.count '@' = 0 :=
      List.count_eq_zero.mpr (fun h => ((notSpaceNorAt_iff _).mp (hta _ h)).2 rfl)
    refine ⟨?_, ?_, l, d ++ '.' :: t, rfl, hl, d, t, rfl, hd, ht⟩
    · intro c hc
      simp only [List.mem_append, List.mem_cons] at hc
      rcases hc with hc | rfl | hc | rfl | hc
      · exact ((notSpaceNorAt_iff _).mp (hla _ hc)).1
      · decide
      · exact ((notSpaceNorAt_iff _).mp (hda _ hc)).1
      · decide
      · exact ((notSpaceNorAt_iff _).mp (hta _ hc)).1
    · have hdot : ('.' == '@') = false := by decide
      simp [List.count_append, List.count_cons, hl0, hd0, ht0, hdot]
  · rintro ⟨hws, hcount, l, dom, rfl, hl, d, t, rfl, hd, ht⟩
    have hdot : ('.' == '@') = false := by decide
    simp only [List.count_append, List.count_cons, beq_self_eq_true, if_true, hdot] at hcount
    have hl0 : l.count '@' = 0 := by omega
    have hd0 : d.count '@' = 0 := by omega
    have ht0 : t.count '@' = 0 := by
      simp only [Bool.false_eq_true, if_false] at hcount
      omega
    refine ⟨l, d, t, rfl, hl, hd, ht, ?_, ?_, ?_⟩
    · intro c hc
      refine (notSpaceNorAt_iff c).mpr ⟨hws c (by simp [hc]), ?_⟩
      rintro rfl
      exact List.count_eq_zero.mp hl0 hc
    · intro c hc
      refine (notSpaceNorAt_iff c).mpr ⟨hws c (by simp [hc]), ?_⟩
      rintro rfl
      exact List.count_eq_zero.mp hd0 hc
    · intro c hc
      refine (notSpaceNorAt_iff c).mpr ⟨hws c (by simp [hc]), ?_⟩
      rintro rfl
      exact List.count_eq_zero.mp ht0 hc

/-! ### Status message -/

theorem showMessage_formMessage (message type : String) (p : Page) :
    (utils.showMessage "formMessage" message type p).formMessage =
      p.formMessage.map
        (fun _ => { textContent := message, className := "form-message " ++ type }) := by
  cases h : p.formMessage <;>
    simp [utils.showMessage, Page.getElementById, Page.setElement, setTimeout, h]

theorem showMessage_timers (message type : String) (p : Page) :
    (utils.showMessage "formMessage" message type p).timers =
      p.timers ++ p.formMessage.toList.map
        (fun _ => { due := p.now + 5000, task := TimerTask.revertMessage "formMessage" }) := by
  cases h : p.formMessage <;>
    simp [utils.showMessage, Page.getElementById, Page.setElement, setTimeout, h]

theorem showMessage_form (message type : String) (p : Page) :
    (utils.showMessage "formMessage" message type p).form = p.form := by
  cases h : p.formMessage <;>
    simp [utils.showMessage, Page.getElementById, Page.setElement, setTimeout, h]

theorem showMessage_now (message type : String) (p : Page) :
    (utils.showMessage "formMessage" message type p).now = p.now := by
  cases h : p.formMessage <;>
    simp [utils.showMessage, Page.getElementById, Page.setElement, setTimeout, h]

/-! ### Contact form: validation -/

/-- C1. When at least one of name, email, subject and message is empty (or
has no control at all), whatever the other fields hold, `validateForm` returns
false and the status element, when the page has one, shows the error-typed
message "Please fill in all fields."; `handleSubmit` then stops there: the form
and its submit button are untouched and the only timer added is the 5 s revert
of the message, so no send timer is scheduled. -/
theorem validateForm_empty_field (p : Page) (data : SubmissionData)
    (h : isFalsy data.name = true ∨ isFalsy data.email = true ∨
      isFalsy data.subject = true ∨ isFalsy data.message = true) :
    (ContactFormHandler.validateForm data p).2 = false ∧
    (ContactFormHandler.validateForm data p).1.formMessage =
      p.formMessage.map (fun _ =>
        { textContent := "Please fill in all fields.", className := "form-message error" }) ∧
    (p.form.formData = data →
      ContactFormHandler.handleSubmit p = (ContactFormHandler.validateForm data p).1 ∧
      (ContactFormHandler.handleSubmit p).form = p.form ∧
      (ContactFormHandler.handleSubmit p).timers =
        p.timers ++ p.formMessage.toList.map
          (fun _ => { due := p.now + 5000, task := TimerTask.revertMessage "formMessage" })) := by
  have hc : (isFalsy data.name || isFalsy data.email || isFalsy data.subject ||
      isFalsy data.message) = true := by
    rcases h with h | h | h | h <;> simp [h]
  have hv : ContactFormHandler.validateForm data p =
      (utils.showMessage "formMessage" "Please fill in all fields." "error" p, false) := by
    simp [ContactFormHandler.validateForm, hc]
  have hcls : "form-message " ++ "error" = "form-message error" := by decide
  refine ⟨by rw [hv], ?_, ?_⟩
  · rw [hv, showMessage_formMessage, hcls]
  · intro hd
    have hs : ContactFormHandler.handleSubmit p =
        utils.showMessage "formMessage" "Please fill in all fields." "error" p := by
      simp [ContactFormHandler.handleSubmit, hd, hv]
    refine ⟨by rw [hs, hv], ?_, ?_⟩
    · rw [hs, showMessage_form]
    · rw [hs, showMessage_timers]

/-- Witness of C1: a form whose message field is empty and whose email is
ill-formed. -/
theorem validateForm_empty_field_witness :
    (ContactFormHandler.validateForm
      { name := some "Ann", email := some "not-an-email", subject := some "Hi",
        message := some "" }
      { now := 0, timers := [], formMessage := some { textContent := "", className := "" },
        form := { name := none, email := none, subject := none, message := none,
                  submitBtn := none } }).2 = false :=
  (validateForm_empty_field _ _ (Or.inr (Or.inr (Or.inr (by decide))))).1

/-- C2. When all four fields are non-empty, `validateForm` returns true exactly
when the email has the shape `local@domain.tld` (no white space, exactly one
`@`, something before it, and after it a `.` with at least one character on
each side). In that case nothing is shown and `handleSubmit` goes on to
`submitForm`, which with a submit button present disables it, shows the loading
label and schedules the send timer 1.5 s ahead. Otherwise `validateForm`
returns false and the status element, when the page has one, shows the
error-typed message "Please enter a valid email address.". The address
`not-an-email` has not the shape and `a@b.co` has it. -/
theorem validateForm_email_shape (p : Page) (name email subject message : String)
    (hn : name ≠ "") (he : email ≠ "") (hs : subject ≠ "") (hm : message ≠ "") :
    let data : SubmissionData :=
      { name := some name, email := some email, subject := some subject,
        message := some message }
    ((ContactFormHandler.validateForm data p).2 = true ↔ EmailShape email.toList) ∧
    (EmailShape email.toList →
      ContactFormHandler.validateForm data p = (p, true) ∧
      (p.form.formData = data →
        ContactFormHandler.handleSubmit p = (ContactFormHandler.submitForm data p).1 ∧
        ∀ btn, p.form.submitBtn = some btn →
          (ContactFormHandler.handleSubmit p).form.submitBtn =
            some { disabled := true, childNodes := loadingMarkup } ∧
          (ContactFormHandler.handleSubmit p).timers =
            p.timers ++ [{ due := p.now + 1500,
                           task := TimerTask.sendComplete btn.textContent data }])) ∧
    (¬ EmailShape email.toList →
      (ContactFormHandler.validateForm data p).2 = false ∧
      (ContactFormHandler.validateForm data p).1.formMessage =
        p.formMessage.map (fun _ =>
          { textContent := "Please enter a valid email address.",
            className := "form-message error" })) ∧
    ¬ EmailShape "not-an-email".toList ∧ EmailShape "a@b.co".toList := by
  intro data
  have hcls : "form-message " ++ "error" = "form-message error" := by decide
  have hf : (isFalsy data.name || isFalsy data.email || isFalsy data.subject ||
      isFalsy data.message) = false := by
    simp [data, isFalsy, hn, he, hs, hm]
  have hv : ContactFormHandler.validateForm data p =
      if emailRegexTest email = true then (p, true)
      else (utils.showMessage "formMessage" "Please enter a valid email address." "error" p,
        false) := by
    simp only [ContactFormHandler.validateForm, hf]
    cases hr : emailRegexTest email <;> simp [data, toJSString, hr]
  have hshape : emailRegexTest email = true ↔ EmailShape email.toList :=
    emailRegex_iff_shape email.toList
  refine ⟨?_, ?_, ?_, ?_, ?_⟩
  · rw [hv, ← hshape]
    cases hr : emailRegexTest email <;> simp
  · intro hsh
    have hr := hshape.mpr hsh
    have hv1 : ContactFormHandler.validateForm data p = (p, true) := by simp [hv, hr]
    refine ⟨hv1, ?_⟩
    intro hd
    have hh : ContactFormHandler.handleSubmit p = (ContactFormHandler.submitForm data p).1 := by
      simp [ContactFormHandler.handleSubmit, hd, hv1]
    refine ⟨hh, ?_⟩
    intro btn hbtn
    rw [hh]
    simp [ContactFormHandler.submitForm, hbtn, setTimeout]
  · intro hsh
    have hr : emailRegexTest email = false := by
      cases hr : emailRegexTest email
      · rfl
      · exact absurd (hshape.mp hr) hsh
    have hv1 : ContactFormHandler.validateForm data p =
        (utils.showMessage "formMessage" "Please enter a valid email address." "error" p,
          false) := by simp [hv, hr]
    refine ⟨by rw [hv1], ?_⟩
    rw [hv1, showMessage_formMessage, hcls]
  · intro hsh
    have h := (emailRegex_iff_shape "not-an-email".toList).mpr hsh
    revert h
    decide
  · exact (emailRegex_iff_shape "a@b.co".toList).mp (by decide)

/-- Witness of C2: a submission with the address `a@b.co`. -/
theorem validateForm_email_shape_witness :
    (ContactFormHandler.validateForm
      { name := some "Ann", email := some "a@b.co", subject := some "Hi",
        message := some "Hello" }
      { now := 0, timers := [], formMessage := none,
        form := { name := none, email := none, subject := none, message := none,
                  submitBtn := none } }).2 = true :=
  ((validateForm_email_shape _ "Ann" "a@b.co" "Hi" "Hello"
      (by decide) (by decide) (by decide) (by decide)).1).mpr
    (((validateForm_email_shape
        { now := 0, timers := [], formMessage := none,
          form := { name := none, email := none, subject := none, message := none,
                    submitBtn := none } }
        "Ann" "a@b.co" "Hi" "Hello"
        (by decide) (by decide) (by decide) (by decide)).2.2.2).2)

/-! ### Class lists -/

theorem ClassList.contains_iff (cl : ClassList) (token : String) :
    ClassList.contains cl token = true ↔ token ∈ cl := by
  unfold ClassList.contains
  rw [List.any_eq_true]
  constructor
  · rintro ⟨x, hx, hxe⟩
    have hxt : x = token := by simpa using hxe
    exact hxt ▸ hx
  · intro h
    exact ⟨token, h, by simp⟩

theorem ClassList.contains_remove (cl : ClassList) (token : String) :
    ClassList.contains (ClassList.remove cl token) token = false := by
  have h : ¬ token ∈ ClassList.remove cl token := by
    simp [ClassList.remove, List.mem_filter]
  cases hc : ClassList.contains (ClassList.remove cl token) token
  · rfl
  · exact absurd ((ClassList.contains_iff _ _).mp hc) h

theorem ClassList.contains_add (cl : ClassList) (token : String) :
    ClassList.contains (ClassList.add cl token) token = true := by
  unfold ClassList.add
  split
  · assumption
  · exact (ClassList.contains_iff _ _).mpr (by simp)

theorem ClassList.remove_remove (cl : ClassList) (token : String) :
    ClassList.remove (ClassList.remove cl token) token = ClassList.remove cl token := by
  simp [ClassList.remove, List.filter_filter]

theorem ClassList.add_add (cl : ClassList) (token : String) :
    ClassList.add (ClassList.add cl token) token = ClassList.add cl token := by
  have h := ClassList.contains_add cl token
  generalize ClassList.add cl token = cl1 at h
  simp [ClassList.add, h]

/-! ### Preview modal -/

/-- C3. For every state of a viewer whose modal and iframe exist, `closeModal`
ends normally and leaves the modal without the class `active`, the iframe
source empty, `currentPDF` null and the body overflow `''`; a click on the
backdrop, the global `closeModal()` and, on an open modal, the Escape key give
exactly the state of `closeModal`; and `closeModal` applied twice gives the
state of applying it once. -/
theorem closeModal_state (v : PDFViewerHandler) (cl : ClassList) (src : String)
    (hm : v.modal = some cl) (hi : v.pdfIframe = some src) :
    (PDFViewerHandler.closeModal v).2 = Completion.normal ∧
    (PDFViewerHandler.closeModal v).1.modal = some (ClassList.remove cl "active") ∧
    ClassList.contains (ClassList.remove cl "active") "active" = false ∧
    (PDFViewerHandler.closeModal v).1.pdfIframe = some "" ∧
    (PDFViewerHandler.closeModal v).1.currentPDF = none ∧
    (PDFViewerHandler.closeModal v).1.bodyOverflow = "" ∧
    PDFViewerHandler.onModalClick true v = PDFViewerHandler.closeModal v ∧
    (ClassList.contains cl "active" = true →
      PDFViewerHandler.onKeydown "Escape" v = PDFViewerHandler.closeModal v) ∧
    closeModal (some v) =
      (some (PDFViewerHandler.closeModal v).1, (PDFViewerHandler.closeModal v).2) ∧
    PDFViewerHandler.closeModal (PDFViewerHandler.closeModal v).1 =
      PDFViewerHandler.closeModal v := by
  have hc : PDFViewerHandler.closeModal v =
      ({ v with modal := some (ClassList.remove cl "active"), pdfIframe := some "",
                currentPDF := none, bodyOverflow := "" }, Completion.normal) := by
    simp [PDFViewerHandler.closeModal, hm, hi]
  refine ⟨by rw [hc], by rw [hc], ClassList.contains_remove _ _, by rw [hc], by rw [hc],
    by rw [hc], by simp [PDFViewerHandler.onModalClick], ?_, by simp [closeModal], ?_⟩
  · intro hopen
    simp [PDFViewerHandler.onKeydown, hm, hopen]
  · rw [hc]
    simp [PDFViewerHandler.closeModal, ClassList.remove_remove]

/-- Witness of C3: the modal opened on the first chapter. -/
theorem closeModal_state_witness :
    (PDFViewerHandler.closeModal
      { modal := some ["modal", "active"], modalTitle := some "Great Depression 2 - Chapter 1",
        pdfIframe := some "Great_Depression_2_Ch_1.pdf",
        currentPDF := some "Great_Depression_2_Ch_1.pdf", bodyOverflow := "hidden" }).1.pdfIframe =
      some "" ∧
    PDFViewerHandler.onKeydown "Escape"
      { modal := some ["modal", "active"], modalTitle := some "Great Depression 2 - Chapter 1",
        pdfIframe := some "Great_Depression_2_Ch_1.pdf",
        currentPDF := some "Great_Depression_2_Ch_1.pdf", bodyOverflow := "hidden" } =
    PDFViewerHandler.closeModal
      { modal := some ["modal", "active"], modalTitle := some "Great Depression 2 - Chapter 1",
        pdfIframe := some "Great_Depression_2_Ch_1.pdf",
        currentPDF := some "Great_Depression_2_Ch_1.pdf", bodyOverflow := "hidden" } :=
  ⟨(closeModal_state _ ["modal", "active"] "Great_Depression_2_Ch_1.pdf" rfl rfl).2.2.2.1,
   (closeModal_state _ ["modal", "active"] "Great_Depression_2_Ch_1.pdf" rfl rfl).2.2.2.2.2.2.2.1
     (by decide)⟩

/-- The title the global `openPDF` passes on for the two known paths. -/
theorem openPDF_known_titles :
    (titlesGet "Great_Depression_2_Ch_1.pdf").or (JSValue.string "PDF Viewer") =
      JSValue.string "Great Depression 2 - Chapter 1" ∧
    (titlesGet "Great_Depression_2_Ch_2.pdf").or (JSValue.string "PDF Viewer") =
      JSValue.string "Great Depression 2 - Chapter 2" := by
  decide

/-- A path that is neither a key of `titles` nor the name of a property of
`Object.prototype` gets the title `PDF Viewer`. -/
theorem openPDF_fallback_title (pdfPath : String)
    (hown : titles.lookup pdfPath = none)
    (hproto : objectPrototypeMethods.lookup pdfPath = none) (hp : pdfPath ≠ "__proto__") :
    (titlesGet pdfPath).or (JSValue.string "PDF Viewer") = JSValue.string "PDF Viewer" := by
  simp [titlesGet, objectPrototypeGet, hown, hproto, hp, JSValue.or, JSValue.truthy]

/-- The effects of the global `openPDF` other than the title, for every path. -/
theorem openPDF_effects (pdfPath : String) (v : PDFViewerHandler) (cl : ClassList)
    (oldTitle oldSrc : String) (hm : v.modal = some cl) (ht : v.modalTitle = some oldTitle)
    (hi : v.pdfIframe = some oldSrc) :
    ∃ w, openPDF pdfPath (some v) = (some w, Completion.normal) ∧
      w.currentPDF = some pdfPath ∧ w.pdfIframe = some pdfPath ∧
      w.modal = some (ClassList.add cl "active") ∧ w.bodyOverflow = "hidden" := by
  simp [openPDF, PDFViewerHandler.openPDF, hm, ht, hi]

/-- C4, at the path `constructor`: the lookup `titles[pdfPath]` finds the
function `Object.prototype.constructor`, which is truthy, so the fallback is
not taken and the modal title becomes the text of that function, not
`PDF Viewer`. The same happens at `toString`. -/
theorem openPDF_constructor_title :
    (openPDF "constructor"
      (some { modal := some ["modal"], modalTitle := some "", pdfIframe := some "",
              currentPDF := none, bodyOverflow := "" })).1 =
      some { modal := some ["modal", "active"],
             modalTitle := some "function Object() \x7b [native code] \x7d",
             pdfIframe := some "constructor", currentPDF := some "constructor",
             bodyOverflow := "hidden" } ∧
    (titlesGet "constructor").or (JSValue.string "PDF Viewer") ≠ JSValue.string "PDF Viewer" ∧
    (titlesGet "toString").or (JSValue.string "PDF Viewer") ≠ JSValue.string "PDF Viewer" := by
  decide

/-! ### Scroll styling of the navbar -/

/-- C5 as stated fails at the offset 50: the handler tests `scrollY > 50`, so
at exactly 50 px a navbar that carried `scrolled` loses it. -/
theorem handleScroll_at_fifty :
    (50 : ℚ) ≥ 50 ∧
    (NavigationHandler.onScroll 50
      { navbar := some ["navbar", "scrolled"], navLinks := [], navMenu := none,
        mobileToggle := none, scrollY := 0, elementIds := [], scrollRequests := [] }).1.navbar =
      some ["navbar"] := by
  refine ⟨le_refl _, ?_⟩
  have hlt : ¬ (50 : ℚ) > 50 := lt_irrefl _
  have hrem : ClassList.remove ["navbar", "scrolled"] "scrolled" = ["navbar"] := by decide
  simp only [NavigationHandler.onScroll, NavigationHandler.handleScroll, hlt, if_false, hrem]

/-- C5, amended. For every scroll offset `y`, whole or fractional, and every
navbar, after the scroll handler has run the navbar carries the class
`scrolled` if `y > 50` and does not carry it if `y ≤ 50`, whether or not the
class was there before; running the handler again at the same offset changes
nothing. -/
theorem handleScroll_scrolled (y : ℚ) (n : NavigationHandler) (cl : ClassList)
    (hn : n.navbar = some cl) :
    (NavigationHandler.onScroll y n).2 = Completion.normal ∧
    (∃ cl1, (NavigationHandler.onScroll y n).1.navbar = some cl1 ∧
      (y > 50 → ClassList.contains cl1 "scrolled" = true) ∧
      (y ≤ 50 → ClassList.contains cl1 "scrolled" = false)) ∧
    NavigationHandler.onScroll y (NavigationHandler.onScroll y n).1 =
      NavigationHandler.onScroll y n := by
  by_cases hy : y > 50
  · have h : NavigationHandler.onScroll y n =
        ({ n with scrollY := y, navbar := some (ClassList.add cl "scrolled") },
          Completion.normal) := by
      simp [NavigationHandler.onScroll, NavigationHandler.handleScroll, hn, hy]
    refine ⟨by rw [h], ⟨_, by rw [h], fun _ => ClassList.contains_add _ _,
      fun hle => absurd hy (not_lt.mpr hle)⟩, ?_⟩
    rw [h]
    simp [NavigationHandler.onScroll, NavigationHandler.handleScroll, hy, ClassList.add_add]
  · have h : NavigationHandler.onScroll y n =
        ({ n with scrollY := y, navbar := some (ClassList.remove cl "scrolled") },
          Completion.normal) := by
      simp [NavigationHandler.onScroll, NavigationHandler.handleScroll, hn, hy]
    refine ⟨by rw [h], ⟨_, by rw [h], fun hgt => absurd hgt hy,
      fun _ => ClassList.contains_remove _ _⟩, ?_⟩
    rw [h]
    simp [NavigationHandler.onScroll, NavigationHandler.handleScroll, hy,
      ClassList.remove_remove]

/-- Witness of C5, amended: at the offset 50.5 a navbar without the class gets
it, which tells the test `> 50` of the script from a test `≥ 51`. -/
theorem handleScroll_scrolled_witness :
    ∃ cl1, (NavigationHandler.onScroll (101 / 2)
      { navbar := some ["navbar"], navLinks := [], navMenu := none, mobileToggle := none,
        scrollY := 0, elementIds := [], scrollRequests := [] }).1.navbar = some cl1 ∧
      ClassList.contains cl1 "scrolled" = true :=
  match (handleScroll_scrolled (101 / 2)
      { navbar := some ["navbar"], navLinks := [], navMenu := none, mobileToggle := none,
        scrollY := 0, elementIds := [], scrollRequests := [] } ["navbar"] rfl).2.1 with
  | ⟨cl1, h, hgt, _⟩ => ⟨cl1, h, hgt (by norm_num)⟩

/-! ### Application start -/

/-- C7, on a page that has every element but the modal root: the constructor
of `PDFViewerHandler` raises a `TypeError` in `setupModalClose`, `App.start`
ends there, and neither the contact form handler nor the animation handler is
created; the global `pdfViewer` stays unset, the cards keep their style and
the body does not get the class `loaded`. -/
theorem start_without_modal :
    let doc : Document :=
      { navbar := some ["navbar"], navLinks := [], navMenu := some ["nav-menu"],
        mobileToggle := some ["mobile-toggle"], elementIds := [], scrollY := 0,
        pdfModal := none, modalTitle := some "", pdfIframe := some "", bodyOverflow := "",
        contactForm := some { name := none, email := none, subject := none, message := none,
                              submitBtn := none },
        formMessage := some { textContent := "", className := "form-message" },
        currentYear := some "", cards := [], bodyClassList := [] }
    (PDFViewerHandler.create doc).2 = Completion.typeError ∧
    (App.start 2026 doc).2 = Completion.typeError ∧
    (App.start 2026 doc).1.pdfViewer = none ∧
    (App.start 2026 doc).1.contactForm = none ∧
    (App.start 2026 doc).1.animations = none ∧
    Listener.formSubmit ∉ (App.start 2026 doc).1.listeners ∧
    (App.start 2026 doc).1.currentYear = some "" ∧
    (App.start 2026 doc).1.bodyClassList = [] := by
  decide

/-- On a page where the modal root exists, `App.start` ends normally and
constructs the four controllers, whichever of the other elements are missing. -/
theorem start_with_modal (year : Nat) (doc : Document) (cl : ClassList)
    (hm : doc.pdfModal = some cl) :
    (App.start year doc).2 = Completion.normal ∧
    (App.start year doc).1.navigation.isSome = true ∧
    (App.start year doc).1.pdfViewer.isSome = true ∧
    (App.start year doc).1.contactForm.isSome = true ∧
    (App.start year doc).1.animations.isSome = true := by
  simp [App.start, PDFViewerHandler.create, PDFViewerHandler.setupModalClose, hm]

/-- The handlers of `NavigationHandler` that use the navbar or the menu panel
without a check raise a `TypeError` when the element is missing: the scroll
handler on a page without navbar, and the click listener of a nav link, after
it has marked the link, on a page without menu panel. -/
theorem navigation_handlers_without_elements :
    let n : NavigationHandler :=
      { navbar := none, navLinks := [{ href := some "#about", classList := ["nav-link"] }],
        navMenu := none, mobileToggle := none, scrollY := 0, elementIds := ["about"],
        scrollRequests := [] }
    (NavigationHandler.onScroll 120 n).2 = Completion.typeError ∧
    (NavigationHandler.onNavLinkClick 0 n).2 = Completion.typeError ∧
    (NavigationHandler.onNavLinkClick 0 n).1.navLinks =
      [{ href := some "#about", classList := ["nav-link", "active"] }] := by
  decide

/-! ### Scroll animations -/

theorem revealed_revealed (card : CardStyle) : revealed (revealed card) = revealed card := rfl

theorem cardCallback_getElem? (entries : List CardEntry) (cards : List CardStyle) (i : Nat) :
    (AnimationHandler.cardCallback entries cards)[i]? =
      if hitsCard i entries = true then cards[i]?.map revealed else cards[i]? := by
  unfold AnimationHandler.cardCallback
  induction entries generalizing cards with
  | nil => simp [hitsCard]
  | cons e es ih =>
      rw [List.foldl_cons, ih]
      have hcons : hitsCard i (e :: es) = ((e.target == i && e.isIntersecting) || hitsCard i es) := by
        simp [hitsCard]
      rw [hcons]
      by_cases hint : e.isIntersecting = true
      · by_cases ht : e.target = i
        · have hrev : (fun card : CardStyle =>
              ({ card with opacity := "1", transform := "translateY(0)" } : CardStyle)) = revealed :=
            rfl
          simp only [hint, if_true, ht, beq_self_eq_true, Bool.and_self, Bool.true_or,
            List.getElem?_modify, hrev]
          cases hc : cards[i]? <;> cases hh : hitsCard i es <;> simp [revealed_revealed]
        · have hne : (e.target == i) = false := by simpa using ht
          simp only [hint, if_true, hne, Bool.false_and, Bool.false_or, List.getElem?_modify]
          cases hc : cards[i]? <;> simp [ht]
      · have hf : e.isIntersecting = false := by simpa using hint
        simp [hf]

theorem runCallbacks_getElem? (callbacks : List (List CardEntry)) (cards : List CardStyle)
    (i : Nat) :
    (AnimationHandler.runCallbacks callbacks cards)[i]? =
      if callbacks.any (hitsCard i) = true then cards[i]?.map revealed else cards[i]? := by
  unfold AnimationHandler.runCallbacks
  induction callbacks generalizing cards with
  | nil => simp
  | cons es rest ih =>
      rw [List.foldl_cons, ih, cardCallback_getElem?, List.any_cons]
      cases hc : cards[i]? <;> cases h1 : hitsCard i es <;>
        cases h2 : rest.any (hitsCard i) <;> simp [revealed_revealed]

theorem setupScrollAnimations_getElem? (cards : List CardStyle) (i : Nat) :
    (AnimationHandler.setupScrollAnimations cards)[i]? =
      cards[i]?.map (fun card =>
        { card with opacity := "0", transform := "translateY(30px)",
                    transition := TransitionValue.staggered i }) := by
  unfold AnimationHandler.setupScrollAnimations
  rw [List.getElem?_map, List.getElem?_enum]
  cases cards[i]? <;> rfl

theorem any_hitsCard_iff (callbacks : List (List CardEntry)) (i : Nat) :
    callbacks.any (hitsCard i) = true ↔
      ∃ entries ∈ callbacks, ∃ e ∈ entries, e.target = i ∧ e.isIntersecting = true := by
  simp [List.any_eq_true, hitsCard]

/-- C9. After `setupScrollAnimations` every content card is hidden (opacity
`0`, `translateY(30px)`). After any sequence of observer callbacks, the opacity
of a card is `1`, and its transform `translateY(0)`, exactly when some entry of
some callback so far reported that card as intersecting, and otherwise the
card is still hidden; once a card has opacity `1`, it has opacity `1` after
every further sequence of callbacks. -/
theorem card_revealed_iff (cards : List CardStyle) (callbacks : List (List CardEntry))
    (i : Nat) (hi : i < cards.length) :
    (∃ c, (AnimationHandler.setupScrollAnimations cards)[i]? = some c ∧
      c.opacity = "0" ∧ c.transform = "translateY(30px)") ∧
    (∃ c, (AnimationHandler.runCallbacks callbacks
        (AnimationHandler.setupScrollAnimations cards))[i]? = some c ∧
      (c.opacity = "1" ↔
        ∃ entries ∈ callbacks, ∃ e ∈ entries, e.target = i ∧ e.isIntersecting = true) ∧
      (c.transform = "translateY(0)" ↔
        ∃ entries ∈ callbacks, ∃ e ∈ entries, e.target = i ∧ e.isIntersecting = true) ∧
      (c.opacity ≠ "1" → c.opacity = "0" ∧ c.transform = "translateY(30px)") ∧
      ∀ later : List (List CardEntry), c.opacity = "1" →
        ∃ c1, (AnimationHandler.runCallbacks later
            (AnimationHandler.runCallbacks callbacks
              (AnimationHandler.setupScrollAnimations cards)))[i]? = some c1 ∧
          c1.opacity = "1" ∧ c1.transform = "translateY(0)") := by
  have hget : cards[i]? = some cards[i] := List.getElem?_eq_getElem hi
  have h01 : ("0" : String) ≠ "1" := by decide
  have htr : ("translateY(30px)" : String) ≠ "translateY(0)" := by decide
  refine ⟨⟨_, by rw [setupScrollAnimations_getElem?, hget]; rfl, rfl, rfl⟩, ?_⟩
  rw [runCallbacks_getElem?, setupScrollAnimations_getElem?, hget, ← any_hitsCard_iff]
  by_cases hh : callbacks.any (hitsCard i) = true
  · refine ⟨_, by rw [if_pos hh]; rfl, ?_, ?_, ?_, ?_⟩
    · simp [revealed, hh]
    · simp [revealed, hh]
    · simp [revealed]
    · intro later _
      refine ⟨revealed { cards[i] with opacity := "0", transform := "translateY(30px)",
                                       transition := TransitionValue.staggered i }, ?_, rfl, rfl⟩
      rw [runCallbacks_getElem?, runCallbacks_getElem?, setupScrollAnimations_getElem?,
        hget, if_pos hh]
      cases later.any (hitsCard i) <;> simp [revealed]
  · refine ⟨_, by rw [if_neg hh]; rfl, ?_, ?_, ?_, ?_⟩
    · simp [hh, h01]
    · simp [hh, htr]
    · simp
    · intro later h1
      exact absurd h1 h01

/-- Witness of C9: two cards; the second is reported as intersecting and later
as not intersecting, the first never as intersecting. -/
theorem card_revealed_iff_witness :
    ∃ c, (AnimationHandler.runCallbacks
        [[{ target := 1, isIntersecting := true }, { target := 0, isIntersecting := false }],
         [{ target := 1, isIntersecting := false }]]
        (AnimationHandler.setupScrollAnimations
          [{ opacity := "", transform := "", transition := TransitionValue.css "" },
           { opacity := "", transform := "", transition := TransitionValue.css "" }]))[1]? =
        some c ∧ c.opacity = "1" := by
  obtain ⟨c, hc, hiff, -⟩ := (card_revealed_iff
    [{ opacity := "", transform := "", transition := TransitionValue.css "" },
     { opacity := "", transform := "", transition := TransitionValue.css "" }]
    [[{ target := 1, isIntersecting := true }, { target := 0, isIntersecting := false }],
     [{ target := 1, isIntersecting := false }]] 1 (by decide)).2
  exact ⟨c, hc, hiff.mpr ⟨_, List.mem_cons_self _ _, _, List.mem_cons_self _ _, rfl, rfl⟩⟩

/-! ### Timers -/

theorem popNext_eq_none (ts : List Timer) : popNext ts = none ↔ ts = [] := by
  cases ts with
  | nil => simp [popNext]
  | cons t rest =>
      simp only [popNext]
      cases popNext rest with
      | none => simp
      | some r => by_cases h : t.due ≤ r.1.due <;> simp [h]

theorem popNext_perm (ts : List Timer) (tm : Timer) (rest : List Timer)
    (h : popNext ts = some (tm, rest)) : ts.Perm (tm :: rest) := by
  induction ts generalizing tm rest with
  | nil => simp [popNext] at h
  | cons t ts1 ih =>
      simp only [popNext] at h
      cases hp : popNext ts1 with
      | none =>
          rw [hp] at h
          simp only [Option.some.injEq, Prod.mk.injEq] at h
          obtain ⟨rfl, rfl⟩ := h
          rw [(popNext_eq_none ts1).mp hp]
      | some r =>
          obtain ⟨u, rest1⟩ := r
          rw [hp] at h
          by_cases hle : t.due ≤ u.due
          · simp only [hle, if_true, Option.some.injEq, Prod.mk.injEq] at h
            obtain ⟨rfl, rfl⟩ := h
            exact List.Perm.refl _
          · simp only [hle, if_false, Option.some.injEq, Prod.mk.injEq] at h
            obtain ⟨rfl, rfl⟩ := h
            exact ((ih u rest1 hp).cons t).trans (List.Perm.swap u t rest1)

theorem popNext_least (ts : List Timer) (tm : Timer) (rest : List Timer)
    (h : popNext ts = some (tm, rest)) : ∀ u ∈ ts, tm.due ≤ u.due := by
  induction ts generalizing tm rest with
  | nil => simp [popNext] at h
  | cons t ts1 ih =>
      simp only [popNext] at h
      cases hp : popNext ts1 with
      | none =>
          rw [hp] at h
          simp only [Option.some.injEq, Prod.mk.injEq] at h
          obtain ⟨rfl, rfl⟩ := h
          rw [(popNext_eq_none ts1).mp hp]
          simp
      | some r =>
          obtain ⟨u, rest1⟩ := r
          rw [hp] at h
          have hu := ih u rest1 hp
          by_cases hle : t.due ≤ u.due
          · simp only [hle, if_true, Option.some.injEq, Prod.mk.injEq] at h
            obtain ⟨rfl, rfl⟩ := h
            intro w hw
            rcases List.mem_cons.mp hw with rfl | hw
            · exact le_refl _
            · exact le_trans hle (hu w hw)
          · simp only [hle, if_false, Option.some.injEq, Prod.mk.injEq] at h
            obtain ⟨rfl, rfl⟩ := h
            intro w hw
            rcases List.mem_cons.mp hw with rfl | hw
            · omega
            · exact hu w hw

theorem pendingWork_perm (ts us : List Timer) (h : ts.Perm us) :
    pendingWork ts = pendingWork us :=
  (h.map _).sum_eq

theorem weight_pos (task : TimerTask) : 0 < task.weight := by
  cases task <;> simp [TimerTask.weight]

theorem pendingWork_eq_zero (ts : List Timer) (h : pendingWork ts = 0) : ts = [] := by
  cases ts with
  | nil => rfl
  | cons t rest =>
      have := weight_pos t.task
      simp [pendingWork] at h
      omega

theorem pendingWork_runTask (task : TimerTask) (p : Page) :
    pendingWork (runTask task p).timers + task.weight ≤ pendingWork p.timers + 2 * task.weight - 1 := by
  cases task with
  | revertMessage elementId =>
      have ht : (runTask (TimerTask.revertMessage elementId) p).timers = p.timers := by
        simp only [runTask, Page.getElementById, Page.setElement]
        split <;> (try split) <;> simp_all
      rw [ht]
      simp [TimerTask.weight]
  | sendComplete originalText data =>
      have ht : (runTask (TimerTask.sendComplete originalText data) p).timers =
          (utils.showMessage "formMessage"
            "Thank you for your message! We will get back to you soon." "success" p).timers := by
        simp only [runTask]
        split <;> rfl
      rw [ht, showMessage_timers]
      cases p.formMessage <;> simp [pendingWork, TimerTask.weight]

theorem pendingWork_fireNext (p : Page) (tm : Timer) (rest : List Timer)
    (h : popNext p.timers = some (tm, rest)) :
    pendingWork (fireNext p).timers < pendingWork p.timers := by
  have hperm := pendingWork_perm _ _ (popNext_perm _ _ _ h)
  have hrun := pendingWork_runTask tm.task { p with now := max p.now tm.due, timers := rest }
  have hpos := weight_pos tm.task
  have hcons : pendingWork (tm :: rest) = tm.task.weight + pendingWork rest := by
    simp [pendingWork]
  simp only [fireNext, h]
  simp only at hrun
  omega

/-- The fuel of `runUntil` is enough: when it returns, the clock is at `t` or
later and no pending timer is due at `t` or before. -/
theorem runUntilAux_settled (fuel t : Nat) (p : Page) (hf : pendingWork p.timers ≤ fuel) :
    t ≤ (runUntilAux fuel t p).now ∧ ∀ tm ∈ (runUntilAux fuel t p).timers, t < tm.due := by
  induction fuel generalizing p with
  | zero =>
      have hnil := pendingWork_eq_zero p.timers (by omega)
      simp [runUntilAux, hnil]
  | succ fuel ih =>
      rw [runUntilAux]
      cases hp : popNext p.timers with
      | none =>
          have hnil := (popNext_eq_none _).mp hp
          simp [hnil]
      | some r =>
          obtain ⟨tm, rest⟩ := r
          by_cases hdue : tm.due ≤ t
          · simp only [hdue, if_true]
            exact ih (fireNext p) (by have := pendingWork_fireNext p tm rest hp; omega)
          · simp only [hdue, if_false]
            refine ⟨le_max_right _ _, ?_⟩
            intro u hu
            have := popNext_least _ _ _ hp u hu
            omega

theorem runUntil_settled (t : Nat) (p : Page) :
    t ≤ (runUntil t p).now ∧ ∀ tm ∈ (runUntil t p).timers, t < tm.due :=
  runUntilAux_settled _ t p (le_refl _)

/-! ### Contact form: the simulated send -/

theorem textContent_setTextContent (b : Button) (s : String) :
    (b.setTextContent s).textContent = s := by
  by_cases h : s = ""
  · simp [Button.setTextContent, Button.textContent, h, String.join]
  · simp [Button.setTextContent, Button.textContent, h, String.join, Node.textContent]

theorem showMessage_pendingSends (message type : String) (p : Page) :
    (utils.showMessage "formMessage" message type p).pendingSends = p.pendingSends := by
  unfold Page.pendingSends
  rw [showMessage_timers, List.filter_append]
  cases p.formMessage <;> simp [Timer.isSend]

theorem showMessage_mem_send (message type : String) (p : Page) (t : Timer)
    (ht : t ∈ (utils.showMessage "formMessage" message type p).timers)
    (hs : t.isSend = true) : t ∈ p.timers := by
  rw [showMessage_timers, List.mem_append] at ht
  rcases ht with ht | ht
  · exact ht
  · cases hm : p.formMessage with
    | none => simp [hm] at ht
    | some el =>
        simp only [hm, Option.toList_some, List.map_cons, List.map_nil,
          List.mem_singleton] at ht
        rw [ht] at hs
        simp [Timer.isSend] at hs

theorem isSend_of_task (t : Timer) (o : String) (d : SubmissionData)
    (h : t.task = TimerTask.sendComplete o d) : t.isSend = true := by
  simp [Timer.isSend, h]

theorem labelInvariant_showMessage (original message type : String) (p : Page)
    (h : LabelInvariant original p) :
    LabelInvariant original (utils.showMessage "formMessage" message type p) := by
  obtain ⟨b, hb, hcap, hone, hlab, hen⟩ := h
  refine ⟨b, by rw [showMessage_form, hb], ?_, ?_, ?_, ?_⟩
  · intro t ht o d htask
    exact hcap t (showMessage_mem_send _ _ _ t ht (isSend_of_task t o d htask)) o d htask
  · rw [showMessage_pendingSends]; exact hone
  · rw [showMessage_pendingSends]; exact hlab
  · rw [showMessage_pendingSends]; exact hen

theorem handleSubmit_cases (p : Page) :
    (∃ message, ContactFormHandler.handleSubmit p =
      utils.showMessage "formMessage" message "error" p) ∨
    ContactFormHandler.handleSubmit p =
      (ContactFormHandler.submitForm p.form.formData p).1 := by
  unfold ContactFormHandler.handleSubmit ContactFormHandler.validateForm
  by_cases h1 : (isFalsy p.form.formData.name || isFalsy p.form.formData.email ||
      isFalsy p.form.formData.subject || isFalsy p.form.formData.message) = true
  · left
    exact ⟨"Please fill in all fields.", by simp [h1]⟩
  · by_cases h2 : emailRegexTest (toJSString p.form.formData.email) = true
    · right
      simp [h1, h2]
    · left
      exact ⟨"Please enter a valid email address.", by simp [h1, h2]⟩

theorem labelInvariant_submit (original : String) (p : Page)
    (h : LabelInvariant original p) (hen : p.submitDisabled = false) :
    LabelInvariant original (ContactFormHandler.handleSubmit p) := by
  rcases handleSubmit_cases p with ⟨message, hm⟩ | hs
  · rw [hm]
    exact labelInvariant_showMessage _ _ _ _ h
  · rw [hs]
    obtain ⟨b, hb, hcap, hone, hlab, hena⟩ := h
    have hbd : b.disabled = false := by simpa [Page.submitDisabled, hb] using hen
    have hnil := hena hbd
    have hfilter : List.filter Timer.isSend p.timers = [] := hnil
    refine ⟨{ disabled := true, childNodes := loadingMarkup }, ?_, ?_, ?_, ?_, ?_⟩
    · simp [ContactFormHandler.submitForm, hb, setTimeout]
    · intro t ht o d htask
      simp only [ContactFormHandler.submitForm, hb, setTimeout, List.mem_append,
        List.mem_singleton] at ht
      rcases ht with ht | ht
      · exact hcap t ht o d htask
      · rw [ht] at htask
        simp only [TimerTask.sendComplete.injEq] at htask
        rw [← htask.1]
        exact hlab hnil
    · simp [ContactFormHandler.submitForm, hb, setTimeout, Page.pendingSends,
        List.filter_append, hfilter, Timer.isSend]
    · intro hp
      simp [ContactFormHandler.submitForm, hb, setTimeout, Page.pendingSends,
        List.filter_append, hfilter, Timer.isSend] at hp
    · intro hd
      simp at hd

theorem runTask_revert (elementId : String) (q : Page) :
    (runTask (TimerTask.revertMessage elementId) q).timers = q.timers ∧
    (runTask (TimerTask.revertMessage elementId) q).form = q.form := by
  simp only [runTask, Page.getElementById, Page.setElement]
  by_cases hid : elementId = "formMessage"
  · cases hfm : q.formMessage <;> simp [hid]
  · simp [hid]

theorem labelInvariant_fireNext (original : String) (p : Page)
    (h : LabelInvariant original p) : LabelInvariant original (fireNext p) := by
  unfold fireNext
  cases hp : popNext p.timers with
  | none => exact h
  | some r =>
      obtain ⟨tm, rest⟩ := r
      show LabelInvariant original
        (runTask tm.task { p with now := max p.now tm.due, timers := rest })
      obtain ⟨b, hb, hcap, hone, hlab, hen⟩ := h
      have hperm := popNext_perm _ _ _ hp
      have hmem : ∀ t, t ∈ tm :: rest → t ∈ p.timers := fun t ht => (hperm.mem_iff).mpr ht
      have hlen : (List.filter Timer.isSend p.timers).length =
          (List.filter Timer.isSend (tm :: rest)).length :=
        (hperm.filter _).length_eq
      have hone1 : (List.filter Timer.isSend p.timers).length ≤ 1 := hone
      cases htask : tm.task with
      | revertMessage elementId =>
          have hsend : tm.isSend = false := by simp [Timer.isSend, htask]
          have hfil : List.filter Timer.isSend (tm :: rest) = List.filter Timer.isSend rest := by
            simp [List.filter_cons, hsend]
          obtain ⟨hrt, hrf⟩ := runTask_revert elementId
            { p with now := max p.now tm.due, timers := rest }
          have hps : List.filter Timer.isSend p.timers = [] ↔
              List.filter Timer.isSend rest = [] := by
            rw [← hfil]
            constructor
            · intro h0
              exact List.length_eq_zero.mp (by rw [← hlen, h0]; rfl)
            · intro h0
              exact List.length_eq_zero.mp (by rw [hlen, h0]; rfl)
          refine ⟨b, by rw [hrf]; exact hb, ?_, ?_, ?_, ?_⟩
          · intro t ht o d ht2
            rw [hrt] at ht
            exact hcap t (hmem t (List.mem_cons_of_mem _ ht)) o d ht2
          · show (List.filter Timer.isSend _).length ≤ 1
            rw [hrt]
            show (List.filter Timer.isSend rest).length ≤ 1
            rw [← hfil, ← hlen]; exact hone1
          · intro h0
            have h1 : List.filter Timer.isSend
                (runTask (TimerTask.revertMessage elementId)
                  { p with now := max p.now tm.due, timers := rest }).timers = [] := h0
            rw [hrt] at h1
            exact hlab (hps.mpr h1)
          · intro hd
            show List.filter Timer.isSend _ = []
            rw [hrt]
            exact hps.mp (hen hd)
      | sendComplete o d =>
          have hsend : tm.isSend = true := by simp [Timer.isSend, htask]
          have ho : o = original := hcap tm (hmem tm (List.mem_cons_self _ _)) o d htask
          have hrest : List.filter Timer.isSend rest = [] := by
            have hl : (List.filter Timer.isSend (tm :: rest)).length =
                (List.filter Timer.isSend rest).length + 1 := by
              simp [List.filter_cons, hsend]
            exact List.length_eq_zero.mp (by omega)
          simp only [runTask]
          have hform : (utils.showMessage "formMessage"
              "Thank you for your message! We will get back to you soon." "success"
              { p with now := max p.now tm.due, timers := rest }).form = p.form := by
            rw [showMessage_form]
          have hsends : (utils.showMessage "formMessage"
              "Thank you for your message! We will get back to you soon." "success"
              { p with now := max p.now tm.due, timers := rest }).pendingSends = [] := by
            rw [showMessage_pendingSends]; exact hrest
          generalize utils.showMessage "formMessage"
              "Thank you for your message! We will get back to you soon." "success"
              { p with now := max p.now tm.due, timers := rest } = q at hform hsends
          have hbtn : q.form.reset.submitBtn = some b := by
            rw [hform]; simpa [FormEl.reset] using hb
          simp only [hbtn]
          refine ⟨_, rfl, ?_, ?_, ?_, ?_⟩
          · intro t ht o1 d1 ht1
            have hts : t ∈ q.pendingSends :=
              List.mem_filter.mpr ⟨ht, isSend_of_task t o1 d1 ht1⟩
            rw [hsends] at hts
            simp at hts
          · show (List.filter Timer.isSend q.timers).length ≤ 1
            have hq : List.filter Timer.isSend q.timers = [] := hsends
            rw [hq]; simp
          · intro _
            rw [textContent_setTextContent, ho]
          · intro _
            exact hsends

theorem labelInvariant_applyEvent (original : String) (e : FormEvent) (p : Page)
    (h : LabelInvariant original p) : LabelInvariant original (applyEvent e p) := by
  cases e with
  | input name email subject message =>
      obtain ⟨b, hb, hrest⟩ := h
      exact ⟨b, by simpa [applyEvent, FormEl.input] using hb, hrest⟩
  | submit =>
      unfold applyEvent
      cases hd : p.submitDisabled with
      | true => simpa using h
      | false => simpa using labelInvariant_submit original p h hd
  | timer => exact labelInvariant_fireNext original p h

theorem labelInvariant_runEvents (original : String) (events : List FormEvent) (p : Page)
    (h : LabelInvariant original p) : LabelInvariant original (runEvents events p) := by
  unfold runEvents
  induction events generalizing p with
  | nil => exact h
  | cons e es ih =>
      rw [List.foldl_cons]
      exact ih (applyEvent e p) (labelInvariant_applyEvent original e p h)

/-- C8. Every `submitForm` call on a form with a submit button disables the
button, replaces its content by the loading indicator and schedules the send
timer 1.5 s ahead with the text the button had when the submission started.
Whenever such a timer fires, the form fields are reset, the success message is
shown in the status element (when the page has one), the button is enabled
and its text is the text captured by that submission. And for every sequence
of typing, submissions and timer firings, starting from a page without pending
send, whenever no send timer is pending the label is the one the button had
at the start, so it is the original label and not the loading label. -/
theorem send_restores_label (p0 : Page) (b0 : Button) (events : List FormEvent)
    (hb : p0.form.submitBtn = some b0) (h0 : p0.pendingSends = []) :
    (∀ (p : Page) (data : SubmissionData) (btn : Button), p.form.submitBtn = some btn →
      (ContactFormHandler.submitForm data p).2 = Completion.normal ∧
      (ContactFormHandler.submitForm data p).1.form.submitBtn =
        some { disabled := true, childNodes := loadingMarkup } ∧
      (ContactFormHandler.submitForm data p).1.timers =
        p.timers ++ [{ due := p.now + 1500,
                       task := TimerTask.sendComplete btn.textContent data }]) ∧
    (∀ (q : Page) (originalText : String) (data : SubmissionData) (btn : Button),
      q.form.submitBtn = some btn →
      (runTask (TimerTask.sendComplete originalText data) q).form =
        { q.form.reset with
          submitBtn := some (Button.setTextContent { btn with disabled := false }
            originalText) } ∧
      (runTask (TimerTask.sendComplete originalText data) q).submitDisabled = false ∧
      (runTask (TimerTask.sendComplete originalText data) q).label = some originalText ∧
      (runTask (TimerTask.sendComplete originalText data) q).formMessage =
        q.formMessage.map (fun _ =>
          { textContent := "Thank you for your message! We will get back to you soon.",
            className := "form-message success" })) ∧
    (∀ t ∈ (runEvents events p0).timers, ∀ (o : String) (d : SubmissionData),
      t.task = TimerTask.sendComplete o d → o = b0.textContent) ∧
    ((runEvents events p0).pendingSends = [] →
      (runEvents events p0).label = some b0.textContent) := by
  have hinit : LabelInvariant b0.textContent p0 := by
    refine ⟨b0, hb, ?_, ?_, fun _ => rfl, fun _ => h0⟩
    · intro t ht o d htask
      have hts : t ∈ p0.pendingSends :=
        List.mem_filter.mpr ⟨ht, isSend_of_task t o d htask⟩
      rw [h0] at hts
      simp at hts
    · rw [h0]; simp
  obtain ⟨b, hbf, hcap, -, hlab, -⟩ :=
    labelInvariant_runEvents b0.textContent events p0 hinit
  refine ⟨?_, ?_, hcap, ?_⟩
  · intro p data btn hbtn
    simp [ContactFormHandler.submitForm, hbtn, setTimeout]
  · intro q originalText data btn hbtn
    have hcls : "form-message " ++ "success" = "form-message success" := by decide
    have hform : (utils.showMessage "formMessage"
        "Thank you for your message! We will get back to you soon." "success" q).form =
        q.form := showMessage_form _ _ _
    have hmsg := showMessage_formMessage
      "Thank you for your message! We will get back to you soon." "success" q
    rw [hcls] at hmsg
    simp only [runTask]
    generalize utils.showMessage "formMessage"
        "Thank you for your message! We will get back to you soon." "success" q = q1
      at hform hmsg
    have hbtn1 : q1.form.reset.submitBtn = some btn := by
      rw [hform]; simpa [FormEl.reset] using hbtn
    simp only [hbtn1]
    refine ⟨by rw [hform], ?_, ?_, hmsg⟩
    · simp [Page.submitDisabled, Button.setTextContent]
    · simp [Page.label, textContent_setTextContent]
  · intro hdone
    simp [Page.label, hbf, hlab hdone]

/-- Witness of C8: two valid submissions, the second attempted while the first
send is pending, and the timers that follow; at the end no send is pending
and the label is the original one. -/
theorem send_restores_label_witness :
    (runEvents [FormEvent.input "Ann" "a@b.co" "Hi" "Hello", FormEvent.submit,
        FormEvent.submit, FormEvent.timer, FormEvent.input "Bob" "b@c.de" "Re" "Hello again",
        FormEvent.submit, FormEvent.timer]
      { now := 0, timers := [], formMessage := none,
        form := { name := some { value := "", defaultValue := "" },
                  email := some { value := "", defaultValue := "" },
                  subject := some { value := "", defaultValue := "" },
                  message := some { value := "", defaultValue := "" },
                  submitBtn := some { disabled := false,
                                      childNodes := [Node.text "Send Message"] } } }).label =
      some "Send Message" :=
  (send_restores_label
    { now := 0, timers := [], formMessage := none,
      form := { name := some { value := "", defaultValue := "" },
                email := some { value := "", defaultValue := "" },
                subject := some { value := "", defaultValue := "" },
                message := some { value := "", defaultValue := "" },
                submitBtn := some { disabled := false,
                                    childNodes := [Node.text "Send Message"] } } }
    { disabled := false, childNodes := [Node.text "Send Message"] }
    [FormEvent.input "Ann" "a@b.co" "Hi" "Hello", FormEvent.submit,
      FormEvent.submit, FormEvent.timer, FormEvent.input "Bob" "b@c.de" "Re" "Hello again",
      FormEvent.submit, FormEvent.timer]
    rfl (by decide)).2.2.2 (by decide)

/-- Outside the events above: when a script calls `handleSubmit` a second time
while the first send is pending (no click or key press does, since the button
is disabled then), the second call captures the loading text, and after both
send timers the enabled button is labelled ` Sending...`. -/
theorem scripted_resubmit_keeps_loading_label :
    let p0 : Page :=
      { now := 0, timers := [],
        formMessage := some { textContent := "", className := "form-message" },
        form := { name := some { value := "Ann", defaultValue := "" },
                  email := some { value := "a@b.co", defaultValue := "" },
                  subject := some { value := "Hi", defaultValue := "" },
                  message := some { value := "Hello", defaultValue := "" },
                  submitBtn := some { disabled := false,
                                      childNodes := [Node.text "Send Message"] } } }
    let p := fireNext (fireNext
      (ContactFormHandler.handleSubmit (ContactFormHandler.handleSubmit p0)))
    p0.label = some "Send Message" ∧
    (ContactFormHandler.handleSubmit p0).submitDisabled = true ∧
    p.pendingSends = [] ∧ p.submitDisabled = false ∧ p.label = some " Sending..." := by
  decide

/-! ### Status message: the revert timers -/

/-- C10. Every `showMessage` call on a page with a status element appends its
own revert timer, due 5 s later, and keeps every timer that was pending. So
when a first message is shown at time `t1` and a second one at `t2` with
`t1 < t2 < t1 + 5 s`, both revert timers are pending after the second call; at
`t1 + 5 s`, which is before `t2 + 5 s`, the timer of the first message fires
and sets the class of the status element to the neutral `form-message`, while
the text of the second message stays and its own timer is still pending. -/
theorem showMessage_revert_race (el : MessageEl) (form : FormEl) (t1 t2 : Nat)
    (m1 type1 m2 type2 : String) (h12 : t1 < t2) (h2 : t2 < t1 + 5000) :
    (∀ (q : Page) (old : MessageEl) (m type : String), q.formMessage = some old →
      (utils.showMessage "formMessage" m type q).timers =
        q.timers ++ [{ due := q.now + 5000, task := TimerTask.revertMessage "formMessage" }]) ∧
    (runUntil t2 (utils.showMessage "formMessage" m1 type1
        { now := t1, timers := [], formMessage := some el, form := form })) =
      { now := t2,
        timers := [{ due := t1 + 5000, task := TimerTask.revertMessage "formMessage" }],
        formMessage := some { textContent := m1, className := "form-message " ++ type1 },
        form := form } ∧
    (utils.showMessage "formMessage" m2 type2
      (runUntil t2 (utils.showMessage "formMessage" m1 type1
        { now := t1, timers := [], formMessage := some el, form := form }))) =
      { now := t2,
        timers := [{ due := t1 + 5000, task := TimerTask.revertMessage "formMessage" },
                   { due := t2 + 5000, task := TimerTask.revertMessage "formMessage" }],
        formMessage := some { textContent := m2, className := "form-message " ++ type2 },
        form := form } ∧
    (runUntil (t1 + 5000) (utils.showMessage "formMessage" m2 type2
      (runUntil t2 (utils.showMessage "formMessage" m1 type1
        { now := t1, timers := [], formMessage := some el, form := form })))) =
      { now := t1 + 5000,
        timers := [{ due := t2 + 5000, task := TimerTask.revertMessage "formMessage" }],
        formMessage := some { textContent := m2, className := "form-message" },
        form := form } ∧
    t1 + 5000 < t2 + 5000 := by
  have hp1 : utils.showMessage "formMessage" m1 type1
      { now := t1, timers := [], formMessage := some el, form := form } =
      { now := t1,
        timers := [{ due := t1 + 5000, task := TimerTask.revertMessage "formMessage" }],
        formMessage := some { textContent := m1, className := "form-message " ++ type1 },
        form := form } := by
    simp [utils.showMessage, Page.getElementById, Page.setElement, setTimeout]
  have hp2 : runUntil t2
      { now := t1,
        timers := [{ due := t1 + 5000, task := TimerTask.revertMessage "formMessage" }],
        formMessage := some { textContent := m1, className := "form-message " ++ type1 },
        form := form } =
      { now := t2,
        timers := [{ due := t1 + 5000, task := TimerTask.revertMessage "formMessage" }],
        formMessage := some { textContent := m1, className := "form-message " ++ type1 },
        form := form } := by
    have hnot : ¬ t1 + 5000 ≤ t2 := by omega
    have hmax : max t1 t2 = t2 := by omega
    simp [runUntil, pendingWork, TimerTask.weight, runUntilAux, popNext, hnot, hmax]
  have hp3 : utils.showMessage "formMessage" m2 type2
      { now := t2,
        timers := [{ due := t1 + 5000, task := TimerTask.revertMessage "formMessage" }],
        formMessage := some { textContent := m1, className := "form-message " ++ type1 },
        form := form } =
      { now := t2,
        timers := [{ due := t1 + 5000, task := TimerTask.revertMessage "formMessage" },
                   { due := t2 + 5000, task := TimerTask.revertMessage "formMessage" }],
        formMessage := some { textContent := m2, className := "form-message " ++ type2 },
        form := form } := by
    simp [utils.showMessage, Page.getElementById, Page.setElement, setTimeout]
  have hp4 : runUntil (t1 + 5000)
      { now := t2,
        timers := [{ due := t1 + 5000, task := TimerTask.revertMessage "formMessage" },
                   { due := t2 + 5000, task := TimerTask.revertMessage "formMessage" }],
        formMessage := some { textContent := m2, className := "form-message " ++ type2 },
        form := form } =
      { now := t1 + 5000,
        timers := [{ due := t2 + 5000, task := TimerTask.revertMessage "formMessage" }],
        formMessage := some { textContent := m2, className := "form-message" },
        form := form } := by
    have hle : t1 + 5000 ≤ t2 + 5000 := by omega
    have hnot : ¬ t2 + 5000 ≤ t1 + 5000 := by omega
    have hnot2 : ¬ t2 ≤ t1 := by omega
    have hmax : max t2 (t1 + 5000) = t1 + 5000 := by omega
    have hpop2 : popNext
        [{ due := t1 + 5000, task := TimerTask.revertMessage "formMessage" },
         ({ due := t2 + 5000, task := TimerTask.revertMessage "formMessage" } : Timer)] =
        some ({ due := t1 + 5000, task := TimerTask.revertMessage "formMessage" },
          [{ due := t2 + 5000, task := TimerTask.revertMessage "formMessage" }]) := by
      simp [popNext, hle]
    have hpop1 : popNext
        [({ due := t2 + 5000, task := TimerTask.revertMessage "formMessage" } : Timer)] =
        some ({ due := t2 + 5000, task := TimerTask.revertMessage "formMessage" }, []) := by
      simp [popNext]
    have hwork : pendingWork
        [{ due := t1 + 5000, task := TimerTask.revertMessage "formMessage" },
         ({ due := t2 + 5000, task := TimerTask.revertMessage "formMessage" } : Timer)] = 1 + 1 :=
      rfl
    unfold runUntil
    simp only [hwork]
    rw [runUntilAux]
    simp only [hpop2, hle, if_true]
    have hfire : fireNext
        { now := t2,
          timers := [{ due := t1 + 5000, task := TimerTask.revertMessage "formMessage" },
                     { due := t2 + 5000, task := TimerTask.revertMessage "formMessage" }],
          formMessage := some { textContent := m2, className := "form-message " ++ type2 },
          form := form } =
        { now := t1 + 5000,
          timers := [{ due := t2 + 5000, task := TimerTask.revertMessage "formMessage" }],
          formMessage := some { textContent := m2, className := "form-message" },
          form := form } := by
      simp [fireNext, hpop2, runTask, Page.getElementById, Page.setElement, hmax]
    rw [hfire, runUntilAux]
    simp [hpop1, hnot]
  refine ⟨?_, ?_, ?_, ?_, by omega⟩
  · intro q old m type hq
    rw [showMessage_timers, hq]
    rfl
  · rw [hp1, hp2]
  · rw [hp1, hp2, hp3]
  · rw [hp1, hp2, hp3, hp4]

/-- Witness of C10: an error shown at 0 ms and a success message at 2000 ms. -/
theorem showMessage_revert_race_witness :
    (runUntil (0 + 5000) (utils.showMessage "formMessage" "Thank you" "success"
      (runUntil 2000 (utils.showMessage "formMessage" "Please fill in all fields." "error"
        { now := 0, timers := [],
          formMessage := some { textContent := "", className := "form-message" },
          form := { name := none, email := none, subject := none, message := none,
                    submitBtn := none } })))).formMessage =
      some { textContent := "Thank you", className := "form-message" } :=
  congrArg Page.formMessage
    (showMessage_revert_race { textContent := "", className := "form-message" }
      { name := none, email := none, subject := none, message := none, submitBtn := none }
      0 2000 "Please fill in all fields." "error" "Thank you" "success"
      (by decide) (by decide)).2.2.2.1

/-! ### Active nav link -/

theorem setActiveLink_navLinks (i : Nat) (n : NavigationHandler) :
    (NavigationHandler.setActiveLink (ElementRef.navLink i) n).navLinks =
      List.modify NavLink.marked i (n.navLinks.map NavLink.cleared) := rfl

theorem setActiveLink_other_navLinks (n : NavigationHandler) :
    (NavigationHandler.setActiveLink ElementRef.other n).navLinks =
      n.navLinks.map NavLink.cleared := rfl

theorem isActive_cleared (l : NavLink) : l.cleared.isActive = false :=
  ClassList.contains_remove l.classList "active"

theorem setActiveLink_length (i : Nat) (n : NavigationHandler) :
    (NavigationHandler.setActiveLink (ElementRef.navLink i) n).navLinks.length =
      n.navLinks.length := by
  rw [setActiveLink_navLinks, List.length_modify, List.length_map]

theorem setActiveLink_hrefs (i : Nat) (n : NavigationHandler) :
    (NavigationHandler.setActiveLink (ElementRef.navLink i) n).navLinks.map NavLink.href =
      n.navLinks.map NavLink.href := by
  apply List.ext_getElem?
  intro j
  rw [setActiveLink_navLinks, List.getElem?_map, List.getElem?_modify, List.getElem?_map,
    List.getElem?_map]
  cases n.navLinks[j]? with
  | none => rfl
  | some l => by_cases h : i = j <;> simp [h, NavLink.marked, NavLink.cleared]

theorem setActiveLink_active_imp (i : Nat) (n : NavigationHandler) (j : Nat)
    (hj : j < (NavigationHandler.setActiveLink (ElementRef.navLink i) n).navLinks.length)
    (hact : ((NavigationHandler.setActiveLink (ElementRef.navLink i) n).navLinks[j]).isActive =
      true) : j = i := by
  have hj1 : j < n.navLinks.length := by rw [setActiveLink_length] at hj; exact hj
  have hget : (NavigationHandler.setActiveLink (ElementRef.navLink i) n).navLinks[j]? =
      some (if i = j then (n.navLinks[j]).cleared.marked else (n.navLinks[j]).cleared) := by
    rw [setActiveLink_navLinks, List.getElem?_modify, List.getElem?_map,
      List.getElem?_eq_getElem hj1]
    by_cases h : i = j <;> simp [h]
  have hval := (List.getElem?_eq_some.mp hget).2
  rw [hval] at hact
  by_cases h : i = j
  · exact h.symm
  · simp only [h, if_false] at hact
    rw [isActive_cleared] at hact
    exact absurd hact (by simp)

theorem setActiveLink_onlyActive (i : Nat) (n : NavigationHandler)
    (hi : i < n.navLinks.length) :
    OnlyActive (NavigationHandler.setActiveLink (ElementRef.navLink i) n).navLinks i := by
  refine ⟨by rw [setActiveLink_length]; exact hi, ?_⟩
  intro j hj
  refine ⟨setActiveLink_active_imp i n j hj, ?_⟩
  rintro rfl
  have hget : (NavigationHandler.setActiveLink (ElementRef.navLink j) n).navLinks[j]? =
      some (n.navLinks[j]).cleared.marked := by
    rw [setActiveLink_navLinks, List.getElem?_modify, List.getElem?_map,
      List.getElem?_eq_getElem hi]
    simp
  rw [(List.getElem?_eq_some.mp hget).2]
  exact ClassList.contains_add _ _

theorem OnlyActive.atMostOne (links : List NavLink) (k : Nat) (h : OnlyActive links k) :
    AtMostOneActive links := by
  intro i j hi hj hai haj
  rw [(h.2 i hi).mp hai, (h.2 j hj).mp haj]

theorem setActiveLink_atMostOne (ref : ElementRef) (n : NavigationHandler) :
    AtMostOneActive (NavigationHandler.setActiveLink ref n).navLinks := by
  cases ref with
  | navLink i =>
      intro a b ha hb haa hab
      rw [setActiveLink_active_imp i n a ha haa, setActiveLink_active_imp i n b hb hab]
  | other =>
      intro a b ha hb haa hab
      have hget : (NavigationHandler.setActiveLink ElementRef.other n).navLinks[a]? =
          n.navLinks[a]?.map NavLink.cleared := by
        rw [setActiveLink_other_navLinks, List.getElem?_map]
      rw [List.getElem?_eq_getElem ha] at hget
      cases hna : n.navLinks[a]? with
      | none => rw [hna] at hget; simp at hget
      | some l =>
          rw [hna] at hget
          simp only [Option.map_some', Option.some.injEq] at hget
          rw [hget, isActive_cleared] at haa
          exact absurd haa (by simp)

theorem toggleMobileMenu_navLinks (n : NavigationHandler) :
    (NavigationHandler.toggleMobileMenu n).1.navLinks = n.navLinks := by
  unfold NavigationHandler.toggleMobileMenu
  cases n.navMenu with
  | none => rfl
  | some menu =>
      cases hm : n.mobileToggle with
      | none => simp [hm]
      | some toggle => simp [hm]

theorem onMobileToggleClick_navLinks (n : NavigationHandler) :
    (NavigationHandler.onMobileToggleClick n).1.navLinks = n.navLinks := by
  unfold NavigationHandler.onMobileToggleClick
  cases n.mobileToggle with
  | none => rfl
  | some toggle => exact toggleMobileMenu_navLinks n

theorem correspondingLink_lt (links : List NavLink) (sectionId : String) (k : Nat)
    (h : NavigationHandler.correspondingLink links sectionId = some k) : k < links.length :=
  (List.findIdx?_eq_some_iff_findIdx_eq.mp h).1

theorem correspondingLink_hrefs (links links1 : List NavLink) (sectionId : String)
    (h : links.map NavLink.href = links1.map NavLink.href) :
    NavigationHandler.correspondingLink links sectionId =
      NavigationHandler.correspondingLink links1 sectionId := by
  have key : ∀ ls : List NavLink, NavigationHandler.correspondingLink ls sectionId =
      List.findIdx? (fun href => href == some ("#" ++ sectionId)) (ls.map NavLink.href) := by
    intro ls
    rw [List.findIdx?_map]
    rfl
  rw [key, key, h]

theorem sectionStep_hrefs (n : NavigationHandler) (entry : SectionEntry) :
    (sectionStep n entry).navLinks.map NavLink.href = n.navLinks.map NavLink.href := by
  unfold sectionStep
  split
  · split
    · exact setActiveLink_hrefs _ _
    · rfl
  · rfl

theorem foldl_sectionStep_hrefs (entries : List SectionEntry) (n : NavigationHandler) :
    (entries.foldl sectionStep n).navLinks.map NavLink.href = n.navLinks.map NavLink.href := by
  induction entries generalizing n with
  | nil => rfl
  | cons e es ih => rw [List.foldl_cons, ih, sectionStep_hrefs]

theorem foldl_sectionStep_no_effect (entries : List SectionEntry) (n : NavigationHandler)
    (h : ∀ e ∈ entries, e.isIntersecting = false ∨
      NavigationHandler.correspondingLink n.navLinks e.sectionId = none) :
    entries.foldl sectionStep n = n := by
  induction entries with
  | nil => rfl
  | cons e es ih =>
      rw [List.foldl_cons]
      have hstep : sectionStep n e = n := by
        unfold sectionStep
        rcases h e (List.mem_cons_self _ _) with he | he
        · simp [he]
        · simp [he]
      rw [hstep]
      exact ih (fun e1 he1 => h e1 (List.mem_cons_of_mem _ he1))

/-- When the id of every intersecting entry passes unchanged through the
selector, the callback handles every entry and ends normally. -/
theorem sectionCallback_safe (engine : List NavLink → String → QueryResult)
    (entries : List SectionEntry) (n : NavigationHandler)
    (h : ∀ e ∈ entries, e.isIntersecting = true →
      NavigationHandler.selectorSafe e.sectionId = true) :
    NavigationHandler.sectionCallback engine entries n =
      (entries.foldl sectionStep n, CallbackEnd.completed) := by
  induction entries generalizing n with
  | nil => rfl
  | cons e es ih =>
      have hes : ∀ e1 ∈ es, e1.isIntersecting = true →
          NavigationHandler.selectorSafe e1.sectionId = true :=
        fun e1 he1 => h e1 (List.mem_cons_of_mem _ he1)
      rw [NavigationHandler.sectionCallback, List.foldl_cons]
      by_cases hint : e.isIntersecting = true
      · have hsafe := h e (List.mem_cons_self _ _) hint
        cases hc : NavigationHandler.correspondingLink n.navLinks e.sectionId with
        | none =>
            have hstep : sectionStep n e = n := by simp [sectionStep, hint, hc]
            simp only [hint, if_true, NavigationHandler.querySelector, hsafe, hc, hstep]
            exact ih n hes
        | some k =>
            have hstep : sectionStep n e =
                NavigationHandler.setActiveLink (ElementRef.navLink k) n := by
              simp [sectionStep, hint, hc]
            simp only [hint, if_true, NavigationHandler.querySelector, hsafe, hc, hstep]
            exact ih _ hes
      · have hstep : sectionStep n e = n := by simp [sectionStep, hint]
        rw [if_neg hint, hstep]
        exact ih n hes

theorem sectionCallback_atMostOne (engine : List NavLink → String → QueryResult)
    (entries : List SectionEntry) (n : NavigationHandler) (h : AtMostOneActive n.navLinks) :
    AtMostOneActive (NavigationHandler.sectionCallback engine entries n).1.navLinks := by
  induction entries generalizing n with
  | nil => exact h
  | cons e es ih =>
      rw [NavigationHandler.sectionCallback]
      by_cases hint : e.isIntersecting = true
      · rw [if_pos hint]
        cases hq : NavigationHandler.querySelector engine n.navLinks e.sectionId with
        | syntaxError => exact h
        | null => exact ih n h
        | element ref => exact ih _ (setActiveLink_atMostOne ref n)
      · rw [if_neg hint]
        exact ih n h

theorem onNavLinkClick_atMostOne (k : Nat) (n : NavigationHandler)
    (h : AtMostOneActive n.navLinks) :
    AtMostOneActive (NavigationHandler.onNavLinkClick k n).1.navLinks := by
  unfold NavigationHandler.onNavLinkClick
  cases hk : n.navLinks[k]? with
  | none => exact h
  | some link =>
      cases hh : link.href with
      | none => simpa [hh] using h
      | some href =>
          simp only [hh]
          by_cases h1 : jsStartsWith href "#" = true
          · by_cases h2 : n.elementIds.contains (jsSubstring href 1) = true
            · have hone : AtMostOneActive (NavigationHandler.setActiveLink (ElementRef.navLink k)
                  { n with scrollRequests := n.scrollRequests ++ [jsSubstring href 1] }).navLinks :=
                setActiveLink_atMostOne _ _
              simp only [h1, h2, if_true]
              cases hmenu : (NavigationHandler.setActiveLink (ElementRef.navLink k)
                  { n with scrollRequests := n.scrollRequests ++ [jsSubstring href 1] }).navMenu with
              | none => exact hone
              | some menu =>
                  by_cases h3 : ClassList.contains menu "active" = true
                  · simp only [h3, if_true]
                    rw [toggleMobileMenu_navLinks]
                    exact hone
                  · simp only [h3]
                    exact hone
            · rw [if_pos h1, if_neg h2]
              exact h
          · rw [if_neg h1]
            exact h

/-- C6. For every list of nav links and every assignment of the class
`active`, after `setActiveLink(link)` with `link` one of the nav links exactly
that link is active. So "at most one nav link is active" is kept by the click
listener of every nav link and by every callback of the section observer,
whatever the section ids and however the callback ends. In a callback with
several intersecting sections whose ids pass unchanged through the selector,
the callback ends normally and the last reported section that has a nav link
is the one active afterwards. Toggling the mobile menu leaves the nav links
as they are. -/
theorem setActiveLink_exactly_one (n : NavigationHandler) (link : Nat)
    (hlink : link < n.navLinks.length) :
    OnlyActive (NavigationHandler.setActiveLink (ElementRef.navLink link) n).navLinks link ∧
    (∀ (m : NavigationHandler) (k : Nat), AtMostOneActive m.navLinks →
      AtMostOneActive (NavigationHandler.onNavLinkClick k m).1.navLinks) ∧
    (∀ (engine : List NavLink → String → QueryResult) (m : NavigationHandler)
      (entries : List SectionEntry), AtMostOneActive m.navLinks →
      AtMostOneActive (NavigationHandler.sectionCallback engine entries m).1.navLinks) ∧
    (∀ (engine : List NavLink → String → QueryResult) (m : NavigationHandler)
      (before after : List SectionEntry) (e : SectionEntry) (k : Nat),
      (∀ x ∈ before ++ e :: after, x.isIntersecting = true →
        NavigationHandler.selectorSafe x.sectionId = true) →
      e.isIntersecting = true →
      NavigationHandler.correspondingLink m.navLinks e.sectionId = some k →
      (∀ e1 ∈ after, e1.isIntersecting = false ∨
        NavigationHandler.correspondingLink m.navLinks e1.sectionId = none) →
      (NavigationHandler.sectionCallback engine (before ++ e :: after) m).2 =
        CallbackEnd.completed ∧
      OnlyActive
        (NavigationHandler.sectionCallback engine (before ++ e :: after) m).1.navLinks k) ∧
    (∀ m : NavigationHandler,
      (NavigationHandler.toggleMobileMenu m).1.navLinks = m.navLinks ∧
      (NavigationHandler.onMobileToggleClick m).1.navLinks = m.navLinks) := by
  refine ⟨setActiveLink_onlyActive link n hlink, fun m k h => onNavLinkClick_atMostOne k m h,
    fun engine m entries h => sectionCallback_atMostOne engine entries m h, ?_,
    fun m => ⟨toggleMobileMenu_navLinks m, onMobileToggleClick_navLinks m⟩⟩
  intro engine m before after e k hsafe he hk hafter
  rw [sectionCallback_safe engine _ m hsafe]
  refine ⟨rfl, ?_⟩
  have hhref := foldl_sectionStep_hrefs before m
  have hk1 : NavigationHandler.correspondingLink
      (before.foldl sectionStep m).navLinks e.sectionId = some k := by
    rw [correspondingLink_hrefs _ _ _ hhref]; exact hk
  have hstep : sectionStep (before.foldl sectionStep m) e =
      NavigationHandler.setActiveLink (ElementRef.navLink k) (before.foldl sectionStep m) := by
    simp [sectionStep, he, hk1]
  show OnlyActive ((before ++ e :: after).foldl sectionStep m).navLinks k
  rw [List.foldl_append, List.foldl_cons, hstep, foldl_sectionStep_no_effect]
  · exact setActiveLink_onlyActive k _ (correspondingLink_lt _ _ _ hk1)
  · intro e1 he1
    rcases hafter e1 he1 with h1 | h1
    · left; exact h1
    · right
      rw [correspondingLink_hrefs _ m.navLinks _
        ((setActiveLink_hrefs _ _).trans hhref)]
      exact h1

/-- Witness of C6: three nav links of which two are marked active at the
start. After `setActiveLink` on the third, only the third is active; and after
a callback that reports `contact`, `about` and `footer` as intersecting, where
`footer` has no nav link, only the link of `about` is active. -/
theorem setActiveLink_exactly_one_witness :
    OnlyActive (NavigationHandler.setActiveLink (ElementRef.navLink 2)
      { navbar := none,
        navLinks := [{ href := some "#home", classList := ["nav-link", "active"] },
                     { href := some "#about", classList := ["nav-link", "active"] },
                     { href := some "#contact", classList := ["nav-link"] }],
        navMenu := none, mobileToggle := none, scrollY := 0, elementIds := [],
        scrollRequests := [] }).navLinks 2 ∧
    OnlyActive (NavigationHandler.sectionCallback (fun _ _ => QueryResult.syntaxError)
      ([{ sectionId := "contact", isIntersecting := true }] ++
        { sectionId := "about", isIntersecting := true } ::
        [{ sectionId := "footer", isIntersecting := true }])
      { navbar := none,
        navLinks := [{ href := some "#home", classList := ["nav-link", "active"] },
                     { href := some "#about", classList := ["nav-link", "active"] },
                     { href := some "#contact", classList := ["nav-link"] }],
        navMenu := none, mobileToggle := none, scrollY := 0, elementIds := [],
        scrollRequests := [] }).1.navLinks 1 :=
  ⟨(setActiveLink_exactly_one _ 2 (by decide)).1,
   ((setActiveLink_exactly_one
      { navbar := none,
        navLinks := [{ href := some "#home", classList := ["nav-link", "active"] },
                     { href := some "#about", classList := ["nav-link", "active"] },
                     { href := some "#contact", classList := ["nav-link"] }],
        navMenu := none, mobileToggle := none, scrollY := 0, elementIds := [],
        scrollRequests := [] } 2 (by decide)).2.2.2.1
      (fun _ _ => QueryResult.syntaxError) _
      [{ sectionId := "contact", isIntersecting := true }]
      [{ sectionId := "footer", isIntersecting := true }]
      { sectionId := "about", isIntersecting := true } 1
      (by decide) rfl (by decide) (by decide)).2⟩

/-- A callback whose first intersecting section has an id with a double quote
in it (a, double quote, b), on a browser whose selector engine rejects the
selector built from it: the callback ends
by the `SyntaxError`, the entry for `about` behind it is not handled, and the
link that was active stays active. -/
theorem sectionCallback_syntaxError :
    NavigationHandler.sectionCallback (fun _ _ => QueryResult.syntaxError)
      [{ sectionId := String.mk ['a', Char.ofNat 34, 'b'], isIntersecting := true },
       { sectionId := "about", isIntersecting := true }]
      { navbar := none,
        navLinks := [{ href := some "#home", classList := ["nav-link", "active"] },
                     { href := some "#about", classList := ["nav-link"] }],
        navMenu := none, mobileToggle := none, scrollY := 0, elementIds := [],
        scrollRequests := [] } =
      ({ navbar := none,
         navLinks := [{ href := some "#home", classList := ["nav-link", "active"] },
                      { href := some "#about", classList := ["nav-link"] }],
         navMenu := none, mobileToggle := none, scrollY := 0, elementIds := [],
         scrollRequests := [] }, CallbackEnd.syntaxError) := by
  decide

end GD2
